import Mathlib

/-!
# Startup orchestration of `chrome/browser/browser_main.cc`

A shallow embedding of `BrowserMain` and of the file-local helpers it calls
(`CheckForWin2000`, `AskForUninstallConfirmation`,
`PrepareRestartOnCrashEnviroment`, `DoUninstallTasks`, `HandleIconsCommands`,
`DoUpgradeTasks`, `HandleErrorTestParameters`).

The function is sequential and talks to many collaborators (dialogs, the
registry, the file system, other processes).  The embedding makes this
explicit:

* every answer a collaborator can give is a field of `World`;
* every call that acts on the outside is recorded, in program order, as an
  `Event` of the run's `trace`;
* the process environment block is passed explicitly (`Env`);
* a run ends in an `Outcome`: an ordinary return value, a failed `DCHECK`, or
  the null-pointer write of the crash test.

Pointers the code asserts to be non-null right before dereferencing them
(`g_browser_process`, `local_state`, `user_prefs`, `metrics`) are taken to be
valid objects.
-/

namespace BrowserMainModel

/-! ## Data model -/

/-- Exit-code taxonomy.  Modelled from the spec: `ResultCodes::ExitCode` of
`chrome/app/result_codes.h` is not part of the sources; the enumerators used
by `browser_main.cc` are kept by name, and `OTHER` stands for any further
`int` that the import flow or the command-line processing hands back. -/
inductive ExitCode where
  | NORMAL_EXIT
  | SHELL_INTEGRATION_FAILED
  | UNINSTALL_DELETE_FILE_ERROR
  | UNINSTALL_CHROME_ALIVE
  | UNINSTALL_USER_CANCEL
  | UNSUPPORTED_PARAM
  | OTHER (code : Int)
  deriving DecidableEq, Repr

/-- The command-line switches of `chrome/common/chrome_switches.h` that
`browser_main.cc` tests. -/
inductive Switch where
  | kUseNewHttp
  | kImport
  | kFirstRun
  | kNoErrorDialogs
  | kUninstall
  | kHideIcons
  | kShowIcons
  | kMakeDefaultBrowser
  | kBrowserCrashTest
  | kBrowserAssertTest
  | kDisableMetrics
  | kDisableMetricsReporting
  | kDebugPrint
  deriving DecidableEq, Repr

/-- A parsed command line: the switches it carries. -/
structure CommandLine where
  switches : List Switch
  deriving DecidableEq, Repr

/-- The method `CommandLine::HasSwitch`. -/
def CommandLine.HasSwitch (command_line : CommandLine) (s : Switch) : Bool :=
  decide (s ∈ command_line.switches)

/-- Names and marker values of `chrome/common/env_vars.h`.  The header is not
part of the sources, so the five constants are parameters of the model. -/
structure EnvVars where
  kShowRestart : String
  kRestartInfo : String
  kHeadless : String
  kRtlLocale : String
  kLtrLocale : String
  deriving DecidableEq, Repr

/-- The process environment block: variable name to value, `none` when the
variable is not set. -/
abbrev Env := String → Option String

/-- The call `::SetEnvironmentVariableW(name, value)`; a `NULL` value (`none`)
deletes the variable. -/
def SetEnvironmentVariableW (env : Env) (name : String) (value : Option String) : Env :=
  fun n => if n = name then value else env n

/-- The call `::GetEnvironmentVariableW(name, NULL, 0)`: the size needed for the
value and its terminator, `0` when the variable does not exist. -/
def GetEnvironmentVariableW (env : Env) (name : String) : Nat :=
  match env name with
  | none => 0
  | some v => v.length + 1

/-- Message boxes are told apart by the resource id of their text. -/
inductive MessageId where
  | IDS_UNSUPPORTED_OS_WIN2000
  | IDS_UNINSTALL_VERIFY
  | IDS_UNINSTALL_CLOSE_APP
  | IDS_HIDE_ICONS_NOT_SUPPORTED (cp_applet : String)
  deriving DecidableEq, Repr

/-- Calls with an effect outside the function that carry no argument of
interest, in the order of the source. -/
inductive Call where
  | SetThreadName
  | UseWinHttp
  | CloseHandle
  | MessageWindowCtor
  | NewFirstRunBrowserProcess
  | NewBrowserProcessImpl
  | RegisterLocalStatePrefs
  | SetMetricsReportingEnabled
  | InitSharedInstance
  | LoadThemeResources
  | GetDefaultProfile
  | RunUserDataDirDialog
  | MessageLoopRun
  | CleanupSharedInstance
  | RegisterAllPrefs
  | ReadLastShutdownInfo
  | LogInfo
  | RemoveSentinel
  | RemoveChromeDesktopShortcut
  | RemoveChromeQuickLaunchShortcut
  | GetVersionEx
  | SetAsDefaultBrowser
  | ImportWithUI
  | NotifyOtherProcess
  | HuntForZombieChromeProcesses
  | SwapNewChromeExeIfPresent
  | RelaunchChromeBrowser
  | MessageWindowCreate
  | MessageWindowLock
  | OpenFirstRunDialog
  | MessageWindowUnlock
  | WinsockInit
  | DnsPrefetcherInit
  | InitCommonControlsEx
  | ScopedCOMInitializer
  | SetResourceProvider
  | RegisterURLRequestChromeJob
  | VerifyInstallation
  | InitBrokerServices
  | SetChromePluginDataDir
  | CertStoreInitialize
  | SetTransientMetricsReportingDisabled
  | InstallJankometer
  | SetDebugDumpPath
  | ProcessCommandLine
  | MessageLoopRunAccelerators
  | BrowserShutdown
  | ShutdownSingleThreadedCleanup
  deriving DecidableEq, Repr

/-- What a run does to the outside, in program order: a plain call, or one of
the calls whose argument matters. -/
inductive Event where
  | call (c : Call)
  | CreateEvent (name : List Nat)
  | SetApplicationLocale (lang : String)
  | MessageBox (text : MessageId)
  | LaunchApp (user_data_dir : String)
  | ShellExecute (file : String)
  | SetEnvironmentVariableW (name : String) (value : Option String)
  | GetEnvironmentVariableW (name : String)
  | InitRlzDelayed (first_run : Bool)
  | MetricsSetRecording (start : Bool)
  deriving DecidableEq, Repr

/-- How a piece of code ends: it returns a value, a `DCHECK` fails, or the
process dies writing through a null pointer. -/
inductive Outcome (α : Type) where
  | returned (value : α)
  | dcheckFailed
  | nullPointerWrite
  deriving DecidableEq, Repr

/-- Everything the collaborators answer during one launch, plus the two build
settings the file depends on. -/
structure World where
  /-- `NDEBUG` is not defined.  `DCHECK` and `NOTREACHED` of `base/logging.h`
  (not part of the sources) are fatal in such a build and compiled out
  otherwise; the cleanup under `#ifndef NDEBUG` is compiled in. -/
  debugBuild : Bool
  /-- `TRACK_ALL_TASK_OBJECTS` is defined and `StartTracking` answered yes. -/
  trackingObjects : Bool
  /-- `PathService::Get(base::FILE_EXE)`: the path as 16-bit code units. -/
  exePath : List Nat
  /-- `GetLastError() == ERROR_ALREADY_EXISTS` after `CreateEvent`. -/
  tokenAlreadyExists : Bool
  /-- `FirstRun::IsChromeFirstRun()`. -/
  isChromeFirstRun : Bool
  /-- `GoogleUpdateSettings::GetLanguage`. -/
  installLanguage : Option String
  /-- `GoogleUpdateSettings::GetCollectStatsConsent()`. -/
  collectStatsConsent : Bool
  /-- `win_util::GetWinVersion() == win_util::WINVERSION_2000`. -/
  winVersionIs2000 : Bool
  /-- `GetDefaultProfile` returned a profile. -/
  profileLoads : Bool
  /-- `UserDataDirDialog::RunUserDataDirDialog`. -/
  chosenUserDataDir : String
  /-- The uninstall confirmation box answered `IDOK`. -/
  uninstallConfirmed : Bool
  /-- `FirstRun::RemoveSentinel()`. -/
  removeSentinel : Bool
  /-- `FirstRun::RemoveChromeDesktopShortcut()`. -/
  removeDesktopShortcut : Bool
  /-- `FirstRun::RemoveChromeQuickLaunchShortcut()`. -/
  removeQuickLaunchShortcut : Bool
  /-- `GetVersionEx`: `none` on failure, else `(dwMajorVersion, dwMinorVersion)`. -/
  osVersion : Option (Nat × Nat)
  /-- The hide-icons box answered `IDOK`. -/
  hideIconsConfirmed : Bool
  /-- `ShellIntegration::SetAsDefaultBrowser()`. -/
  setAsDefaultBrowser : Bool
  /-- `FirstRun::ImportWithUI`. -/
  importWithUI : ExitCode
  /-- `message_window.NotifyOtherProcess(show_command)`. -/
  notifyOtherProcess : Bool
  /-- `Upgrade::SwapNewChromeExeIfPresent()`. -/
  swapNewChromeExeIfPresent : Bool
  /-- `Upgrade::RelaunchChromeBrowser`. -/
  relaunchChromeBrowser : Bool
  /-- `l10n_util::GetString(IDS_CRASH_RECOVERY_TITLE)`. -/
  crashRecoveryTitle : String
  /-- `l10n_util::GetString(IDS_CRASH_RECOVERY_CONTENT)`. -/
  crashRecoveryContent : String
  /-- `l10n_util::GetTextDirection() == l10n_util::RIGHT_TO_LEFT`. -/
  textDirectionIsRtl : Bool
  /-- `local_state->GetBoolean(prefs::kMetricsIsRecording)`. -/
  metricsIsRecording : Bool
  /-- `BrowserInit::ProcessCommandLine`: its `bool` answer. -/
  processCommandLine : Bool
  /-- `BrowserInit::ProcessCommandLine`: what it stores in `result_code`, if
  anything. -/
  processCommandLineCode : Option ExitCode

/-- One run of a piece of code: how it ended, what it did, and the environment
block it leaves. -/
structure Run (α : Type) where
  result : Outcome α
  trace : List Event
  env : Env

/-! ## The file-local helpers -/

/-- Source `CheckForWin2000` (lines 125-134): the value and the calls made. -/
def CheckForWin2000 (w : World) : Bool × List Event :=
  if w.winVersionIs2000 then
    (true, [Event.MessageBox MessageId.IDS_UNSUPPORTED_OS_WIN2000])
  else
    (false, [])

/-- Source `AskForUninstallConfirmation` (lines 136-141). -/
def AskForUninstallConfirmation (w : World) : Bool × List Event :=
  (w.uninstallConfirmed, [Event.MessageBox MessageId.IDS_UNINSTALL_VERIFY])

/-- Source `DoUninstallTasks` (lines 178-191). -/
def DoUninstallTasks (w : World) : ExitCode × List Event :=
  let ask := AskForUninstallConfirmation w
  if !ask.1 then
    (ExitCode.UNINSTALL_USER_CANCEL, ask.2)
  else
    let ret := ExitCode.NORMAL_EXIT
    let ret := if !w.removeSentinel then ExitCode.UNINSTALL_DELETE_FILE_ERROR else ret
    let ret := if !w.removeDesktopShortcut then ExitCode.UNINSTALL_DELETE_FILE_ERROR else ret
    let ret := if !w.removeQuickLaunchShortcut then ExitCode.UNINSTALL_DELETE_FILE_ERROR else ret
    (ret, ask.2 ++ [Event.call .LogInfo, Event.call .RemoveSentinel,
      Event.call .RemoveChromeDesktopShortcut, Event.call .RemoveChromeQuickLaunchShortcut])

/-- Source `HandleIconsCommands` (lines 197-223). -/
def HandleIconsCommands (w : World) (parsed_command_line : CommandLine) :
    ExitCode × List Event :=
  if parsed_command_line.HasSwitch Switch.kHideIcons then
    match w.osVersion with
    | none => (ExitCode.UNSUPPORTED_PARAM, [Event.call .GetVersionEx])
    | some (dwMajorVersion, dwMinorVersion) =>
      let cp_applet : Option String :=
        if dwMajorVersion ≥ 6 then some "Programs and Features"
        else if dwMajorVersion = 5 ∧ dwMinorVersion ≥ 1 then some "Add/Remove Programs"
        else none
      match cp_applet with
      | none => (ExitCode.UNSUPPORTED_PARAM, [Event.call .GetVersionEx])
      | some applet =>
        let shown := [Event.call .GetVersionEx,
          Event.MessageBox (MessageId.IDS_HIDE_ICONS_NOT_SUPPORTED applet)]
        if w.hideIconsConfirmed then
          (ExitCode.NORMAL_EXIT, shown ++ [Event.ShellExecute "appwiz.cpl"])
        else
          (ExitCode.NORMAL_EXIT, shown)
  else
    (ExitCode.UNSUPPORTED_PARAM, [])

/-- Source `DoUpgradeTasks` (lines 225-234).  `NOTREACHED()` ends the run when
assertions are compiled in; otherwise control reaches `return true`. -/
def DoUpgradeTasks (w : World) : Outcome Bool × List Event :=
  if !w.swapNewChromeExeIfPresent then
    (Outcome.returned false, [Event.call .SwapNewChromeExeIfPresent])
  else if !w.relaunchChromeBrowser then
    if w.debugBuild then
      (Outcome.dcheckFailed,
        [Event.call .SwapNewChromeExeIfPresent, Event.call .RelaunchChromeBrowser])
    else
      (Outcome.returned true,
        [Event.call .SwapNewChromeExeIfPresent, Event.call .RelaunchChromeBrowser])
  else
    (Outcome.returned true,
      [Event.call .SwapNewChromeExeIfPresent, Event.call .RelaunchChromeBrowser])

/-- Source `PrepareRestartOnCrashEnviroment` (lines 147-176): the calls made and
the environment block left behind. -/
def PrepareRestartOnCrashEnviroment (ev : EnvVars) (w : World)
    (parsed_command_line : CommandLine) (env : Env) : List Event × Env :=
  let env1 := SetEnvironmentVariableW env ev.kShowRestart none
  let clear := [Event.SetEnvironmentVariableW ev.kShowRestart none,
    Event.GetEnvironmentVariableW ev.kHeadless]
  if GetEnvironmentVariableW env1 ev.kHeadless ≠ 0 then
    (clear, env1)
  else if parsed_command_line.HasSwitch Switch.kBrowserCrashTest ||
      parsed_command_line.HasSwitch Switch.kBrowserAssertTest ||
      parsed_command_line.HasSwitch Switch.kNoErrorDialogs then
    (clear, env1)
  else
    let dlg_strings := ""
    let dlg_strings := dlg_strings ++ w.crashRecoveryTitle
    let dlg_strings := dlg_strings ++ "|"
    let dlg_strings := dlg_strings ++ w.crashRecoveryContent
    let dlg_strings := dlg_strings ++ "|"
    let dlg_strings :=
      if w.textDirectionIsRtl then dlg_strings ++ ev.kRtlLocale
      else dlg_strings ++ ev.kLtrLocale
    (clear ++ [Event.SetEnvironmentVariableW ev.kRestartInfo (some dlg_strings)],
      SetEnvironmentVariableW env1 ev.kRestartInfo (some dlg_strings))

/-- Source `HandleErrorTestParameters` (lines 88-99): `none` when control
comes back, else the way the process dies. -/
def HandleErrorTestParameters (w : World) (command_line : CommandLine) :
    Option (Outcome ExitCode) :=
  if command_line.HasSwitch Switch.kBrowserAssertTest && w.debugBuild then
    some Outcome.dcheckFailed
  else if command_line.HasSwitch Switch.kBrowserCrashTest then
    some Outcome.nullPointerWrite
  else
    none

/-! ## `BrowserMain` -/

/-- The function `tolower` of the C library in the "C" locale, the locale the
process starts in: only `A`..`Z` change. -/
def tolower (c : Nat) : Nat :=
  if 65 ≤ c ∧ c ≤ 90 then c + 32 else c

/-- Source `BrowserMain`, lines 257-260: the name handed to `CreateEvent`, from
the executable path.  `std::replace` turns every backslash (92) into `!` (33),
`std::transform` stores `tolower` of every unit back into the 16-bit string. -/
def InstanceTokenName (exe : List Nat) : List Nat :=
  let exe := exe.map (fun c => if c = 92 then 33 else c)
  exe.map (fun c => tolower c % 65536)

/-- Source `BrowserMain`, line 290. -/
def is_first_run (w : World) (parsed_command_line : CommandLine) : Bool :=
  w.isChromeFirstRun || parsed_command_line.HasSwitch Switch.kFirstRun

/-- Source `BrowserMain`, lines 248-331: the calls made up to and including
the attempt to load the profile. -/
def BrowserMain.startup (w : World) (parsed_command_line : CommandLine) : List Event :=
  let already_running := w.tokenAlreadyExists
  [Event.call .SetThreadName]
  ++ (if parsed_command_line.HasSwitch Switch.kUseNewHttp then [Event.call .UseWinHttp] else [])
  ++ [Event.CreateEvent (InstanceTokenName w.exePath)]
  ++ (if already_running then [Event.call .CloseHandle] else [])
  ++ [Event.call .MessageWindowCtor]
  ++ (if parsed_command_line.HasSwitch Switch.kImport then [Event.call .NewFirstRunBrowserProcess]
      else [Event.call .NewBrowserProcessImpl])
  ++ [Event.call .RegisterLocalStatePrefs]
  ++ (if is_first_run w parsed_command_line then
        (match w.installLanguage with
          | some install_lang => [Event.SetApplicationLocale install_lang]
          | none => [])
        ++ (if w.collectStatsConsent then [Event.call .SetMetricsReportingEnabled] else [])
      else [])
  ++ [Event.call .InitSharedInstance, Event.call .LoadThemeResources]
  ++ (if !parsed_command_line.HasSwitch Switch.kNoErrorDialogs then (CheckForWin2000 w).2
      else [])
  ++ [Event.call .GetDefaultProfile]

/-- Source `BrowserMain`, lines 425-512: what follows
`PrepareRestartOnCrashEnviroment`; `t` holds the calls made so far. -/
def BrowserMain.run (w : World) (parsed_command_line : CommandLine) (t : List Event)
    (env : Env) : Run ExitCode :=
  let metrics := !parsed_command_line.HasSwitch Switch.kDisableMetrics
  let t := t
    ++ [Event.call .WinsockInit, Event.call .DnsPrefetcherInit,
      Event.call .InitCommonControlsEx, Event.call .ScopedCOMInitializer,
      Event.InitRlzDelayed (is_first_run w parsed_command_line),
      Event.call .SetResourceProvider, Event.call .RegisterURLRequestChromeJob,
      Event.call .VerifyInstallation, Event.call .InitBrokerServices,
      Event.call .SetChromePluginDataDir, Event.call .CertStoreInitialize]
    ++ (if metrics then
          (if parsed_command_line.HasSwitch Switch.kDisableMetricsReporting then
            [Event.call .SetTransientMetricsReportingDisabled] else [])
          ++ [Event.MetricsSetRecording w.metricsIsRecording]
        else [])
    ++ [Event.call .InstallJankometer]
    ++ (if parsed_command_line.HasSwitch Switch.kDebugPrint then [Event.call .SetDebugDumpPath]
        else [])
  match HandleErrorTestParameters w parsed_command_line with
  | some death => ⟨death, t, env⟩
  | none =>
    let result_code := ExitCode.NORMAL_EXIT
    let result_code := match w.processCommandLineCode with
      | some code => code
      | none => result_code
    let t := t
      ++ [Event.call .ProcessCommandLine]
      ++ (if w.processCommandLine then [Event.call .MessageLoopRunAccelerators] else [])
      ++ (if metrics then [Event.MetricsSetRecording false] else [])
      ++ [Event.call .BrowserShutdown]
      ++ (if w.debugBuild && w.trackingObjects then [Event.call .ShutdownSingleThreadedCleanup]
          else [])
    ⟨Outcome.returned result_code, t, env⟩

/-- Source `BrowserMain` (lines 239-513). -/
def BrowserMain (ev : EnvVars) (w : World) (parsed_command_line : CommandLine) (env : Env) :
    Run ExitCode :=
  let t := BrowserMain.startup w parsed_command_line
  let already_running := w.tokenAlreadyExists
  if !w.profileLoads then
    let t := t
      ++ [Event.call .RunUserDataDirDialog, Event.call .MessageLoopRun,
        Event.call .CleanupSharedInstance]
      ++ (if w.chosenUserDataDir ≠ "" then [Event.LaunchApp w.chosenUserDataDir] else [])
    ⟨Outcome.returned ExitCode.NORMAL_EXIT, t, env⟩
  else
    let t := t ++ [Event.call .RegisterAllPrefs, Event.call .ReadLastShutdownInfo]
    if parsed_command_line.HasSwitch Switch.kUninstall then
      if already_running then
        ⟨Outcome.returned ExitCode.UNINSTALL_CHROME_ALIVE,
          t ++ [Event.MessageBox MessageId.IDS_UNINSTALL_CLOSE_APP], env⟩
      else
        ⟨Outcome.returned (DoUninstallTasks w).1, t ++ (DoUninstallTasks w).2, env⟩
    else if parsed_command_line.HasSwitch Switch.kHideIcons ||
        parsed_command_line.HasSwitch Switch.kShowIcons then
      ⟨Outcome.returned (HandleIconsCommands w parsed_command_line).1,
        t ++ (HandleIconsCommands w parsed_command_line).2, env⟩
    else if parsed_command_line.HasSwitch Switch.kMakeDefaultBrowser then
      if w.setAsDefaultBrowser then
        ⟨Outcome.returned ExitCode.NORMAL_EXIT, t ++ [Event.call .SetAsDefaultBrowser], env⟩
      else
        ⟨Outcome.returned ExitCode.SHELL_INTEGRATION_FAILED,
          t ++ [Event.call .SetAsDefaultBrowser], env⟩
    else if parsed_command_line.HasSwitch Switch.kImport then
      ⟨Outcome.returned w.importWithUI, t ++ [Event.call .ImportWithUI], env⟩
    else if w.notifyOtherProcess then
      ⟨Outcome.returned ExitCode.NORMAL_EXIT, t ++ [Event.call .NotifyOtherProcess], env⟩
    else
      let t := t ++ [Event.call .NotifyOtherProcess, Event.call .HuntForZombieChromeProcesses]
      let t := t ++ (DoUpgradeTasks w).2
      match (DoUpgradeTasks w).1 with
      | Outcome.dcheckFailed => ⟨Outcome.dcheckFailed, t, env⟩
      | Outcome.nullPointerWrite => ⟨Outcome.nullPointerWrite, t, env⟩
      | Outcome.returned true => ⟨Outcome.returned ExitCode.NORMAL_EXIT, t, env⟩
      | Outcome.returned false =>
        let t := t
          ++ [Event.call .MessageWindowCreate]
          ++ (if is_first_run w parsed_command_line then
                [Event.call .MessageWindowLock, Event.call .OpenFirstRunDialog,
                  Event.call .MessageWindowUnlock]
              else [])
        let prepared := PrepareRestartOnCrashEnviroment ev w parsed_command_line env
        BrowserMain.run w parsed_command_line (t ++ prepared.1) prepared.2

/-! ## The gate order of the specification -/

/-- The terminal gates of the startup sequence, in the order in which the
specification lists them (section 4.3, items 1 to 6). -/
inductive Gate where
  | uninstall
  | iconToggle
  | makeDefaultBrowser
  | importSettings
  | handOff
  | upgradeRelaunch
  deriving DecidableEq, Repr

/-- The fixed precedence order of the gates. -/
def Gate.order : List Gate :=
  [Gate.uninstall, Gate.iconToggle, Gate.makeDefaultBrowser, Gate.importSettings,
    Gate.handOff, Gate.upgradeRelaunch]

/-- Position of a gate in the precedence order, counted from one. -/
def Gate.rank : Gate → Nat
  | Gate.uninstall => 1
  | Gate.iconToggle => 2
  | Gate.makeDefaultBrowser => 3
  | Gate.importSettings => 4
  | Gate.handOff => 5
  | Gate.upgradeRelaunch => 6

/-- The condition under which a gate applies: its switch, a successful
hand-off to the running instance, or a staged executable that was swapped in. -/
def Gate.condition (w : World) (command_line : CommandLine) : Gate → Bool
  | Gate.uninstall => command_line.HasSwitch Switch.kUninstall
  | Gate.iconToggle =>
    command_line.HasSwitch Switch.kHideIcons || command_line.HasSwitch Switch.kShowIcons
  | Gate.makeDefaultBrowser => command_line.HasSwitch Switch.kMakeDefaultBrowser
  | Gate.importSettings => command_line.HasSwitch Switch.kImport
  | Gate.handOff => w.notifyOtherProcess
  | Gate.upgradeRelaunch => w.swapNewChromeExeIfPresent

/-- What a gate hands back when it is the one that applies. -/
def Gate.value (w : World) (command_line : CommandLine) : Gate → Outcome ExitCode
  | Gate.uninstall =>
    if w.tokenAlreadyExists then Outcome.returned ExitCode.UNINSTALL_CHROME_ALIVE
    else Outcome.returned (DoUninstallTasks w).1
  | Gate.iconToggle => Outcome.returned (HandleIconsCommands w command_line).1
  | Gate.makeDefaultBrowser =>
    if w.setAsDefaultBrowser then Outcome.returned ExitCode.NORMAL_EXIT
    else Outcome.returned ExitCode.SHELL_INTEGRATION_FAILED
  | Gate.importSettings => Outcome.returned w.importWithUI
  | Gate.handOff => Outcome.returned ExitCode.NORMAL_EXIT
  | Gate.upgradeRelaunch =>
    match (DoUpgradeTasks w).1 with
    | Outcome.returned _ => Outcome.returned ExitCode.NORMAL_EXIT
    | Outcome.dcheckFailed => Outcome.dcheckFailed
    | Outcome.nullPointerWrite => Outcome.nullPointerWrite

/-- The first gate of the order whose condition holds, if any. -/
def firstGate (w : World) (command_line : CommandLine) : Option Gate :=
  Gate.order.find? (Gate.condition w command_line)

/-- The place of a call in the gate sequence: the rank of the gate that makes
it, `0` for what precedes the gates (start-up and the profile-failure exit),
`7` for what follows them.  The zombie hunt sits between the hand-off and the
upgrade check and is counted with the latter. -/
def Event.stage : Event → Nat
  | Event.MessageBox MessageId.IDS_UNINSTALL_CLOSE_APP => 1
  | Event.MessageBox MessageId.IDS_UNINSTALL_VERIFY => 1
  | Event.call .LogInfo => 1
  | Event.call .RemoveSentinel => 1
  | Event.call .RemoveChromeDesktopShortcut => 1
  | Event.call .RemoveChromeQuickLaunchShortcut => 1
  | Event.call .GetVersionEx => 2
  | Event.MessageBox (MessageId.IDS_HIDE_ICONS_NOT_SUPPORTED _) => 2
  | Event.ShellExecute _ => 2
  | Event.call .SetAsDefaultBrowser => 3
  | Event.call .ImportWithUI => 4
  | Event.call .NotifyOtherProcess => 5
  | Event.call .HuntForZombieChromeProcesses => 6
  | Event.call .SwapNewChromeExeIfPresent => 6
  | Event.call .RelaunchChromeBrowser => 6
  | Event.call .SetThreadName => 0
  | Event.call .UseWinHttp => 0
  | Event.CreateEvent _ => 0
  | Event.call .CloseHandle => 0
  | Event.call .MessageWindowCtor => 0
  | Event.call .NewFirstRunBrowserProcess => 0
  | Event.call .NewBrowserProcessImpl => 0
  | Event.call .RegisterLocalStatePrefs => 0
  | Event.SetApplicationLocale _ => 0
  | Event.call .SetMetricsReportingEnabled => 0
  | Event.call .InitSharedInstance => 0
  | Event.call .LoadThemeResources => 0
  | Event.MessageBox MessageId.IDS_UNSUPPORTED_OS_WIN2000 => 0
  | Event.call .GetDefaultProfile => 0
  | Event.call .RunUserDataDirDialog => 0
  | Event.call .MessageLoopRun => 0
  | Event.call .CleanupSharedInstance => 0
  | Event.LaunchApp _ => 0
  | Event.call .RegisterAllPrefs => 0
  | Event.call .ReadLastShutdownInfo => 0
  | _ => 7

/-! ## Sample launches -/

/-- Sample values for the five constants, as Chromium spells them. -/
def chromeEnvVars : EnvVars :=
  { kShowRestart := "CHROME_CRASHED"
    kRestartInfo := "CHROME_RESTART"
    kHeadless := "CHROME_HEADLESS"
    kRtlLocale := "RIGHT_TO_LEFT"
    kLtrLocale := "LEFT_TO_RIGHT" }

/-- A launch on Windows XP in a release build where every collaborator
succeeds, every dialog is confirmed, no other instance runs and nothing is
staged for upgrade; the executable is `C:\\a\\Chrome.EXE`. -/
def sampleWorld : World :=
  { debugBuild := false
    trackingObjects := false
    exePath := [67, 58, 92, 97, 92, 67, 104, 114, 111, 109, 101, 46, 69, 88, 69]
    tokenAlreadyExists := false
    isChromeFirstRun := false
    installLanguage := none
    collectStatsConsent := false
    winVersionIs2000 := false
    profileLoads := true
    chosenUserDataDir := ""
    uninstallConfirmed := true
    removeSentinel := true
    removeDesktopShortcut := true
    removeQuickLaunchShortcut := true
    osVersion := some (5, 1)
    hideIconsConfirmed := true
    setAsDefaultBrowser := true
    importWithUI := ExitCode.NORMAL_EXIT
    notifyOtherProcess := false
    swapNewChromeExeIfPresent := false
    relaunchChromeBrowser := true
    crashRecoveryTitle := "Title"
    crashRecoveryContent := "Body"
    textDirectionIsRtl := false
    metricsIsRecording := false
    processCommandLine := true
    processCommandLineCode := none }

/-- An environment block with no variable set. -/
def emptyEnv : Env := fun _ => none

/-- An environment block in which an earlier launch left its recovery record
and its restart flag. -/
def leftoverEnv : Env := fun n =>
  if n = "CHROME_RESTART" then some "Title|Body|LEFT_TO_RIGHT"
  else if n = "CHROME_CRASHED" then some "1"
  else none

/-- The condition of the specification under which the icon gate is supported:
the hide-icons switch is present, the OS version query succeeds and the
version is XP or later (major at least 6, or major 5 and minor at least 1). -/
def hideIconsSupported (w : World) (command_line : CommandLine) : Bool :=
  command_line.HasSwitch Switch.kHideIcons &&
    match w.osVersion with
    | none => false
    | some (major, minor) => decide (major ≥ 6) || (decide (major = 5) && decide (minor ≥ 1))

/-! ## Comparing executable paths -/

/-- Two code units agree up to letter case: they are equal, or one is a letter
of `A`..`Z` and the other the same letter in lower case. -/
def sameUpToCase (a b : Nat) : Bool :=
  a == b || (decide (65 ≤ a) && decide (a ≤ 90) && b == a + 32) ||
    (decide (65 ≤ b) && decide (b ≤ 90) && a == b + 32)

/-- A directory separator: backslash (92) or forward slash (47). -/
def isSeparator (c : Nat) : Bool :=
  c == 92 || c == 47

/-- Two code units agree up to letter case or separator style. -/
def sameUpToCaseOrSeparator (a b : Nat) : Bool :=
  sameUpToCase a b || (isSeparator a && isSeparator b)

/-- Two paths of the same length agree unit by unit under `r`. -/
def pathsAgree (r : Nat → Nat → Bool) : List Nat → List Nat → Bool
  | [], [] => true
  | a :: p, b :: q => r a b && pathsAgree r p q
  | _, _ => false

/-- The paths differ only in letter case. -/
def differOnlyInCase (p q : List Nat) : Bool :=
  pathsAgree sameUpToCase p q

/-- The paths differ only in letter case or in separator style. -/
def differOnlyInCaseOrSeparator (p q : List Nat) : Bool :=
  pathsAgree sameUpToCaseOrSeparator p q

/-- The path `C:\\a` (backslash separator). -/
def backslashPath : List Nat := [67, 58, 92, 97]

/-- The path `C:/a` (forward-slash separator). -/
def forwardSlashPath : List Nat := [67, 58, 47, 97]

/-- The path `c:\\A\\chrome.exe`, a case variant of the path of `sampleWorld`. -/
def lowerCasePath : List Nat :=
  [99, 58, 92, 65, 92, 99, 104, 114, 111, 109, 101, 46, 101, 120, 101]

/-- A command line with the uninstall and the import switch. -/
def uninstallAndImport : CommandLine :=
  { switches := [Switch.kUninstall, Switch.kImport] }

/-- A command line with the uninstall switch only. -/
def uninstallOnly : CommandLine :=
  { switches := [Switch.kUninstall] }

/-- A command line with the hide-icons switch only. -/
def hideIconsOnly : CommandLine :=
  { switches := [Switch.kHideIcons] }

/-- A command line with the show-icons switch only. -/
def showIconsOnly : CommandLine :=
  { switches := [Switch.kShowIcons] }

/-- A command line without switches. -/
def noSwitches : CommandLine :=
  { switches := [] }

/-- The sample launch with the uninstall prompt declined. -/
def declineWorld : World :=
  { sampleWorld with uninstallConfirmed := false }

/-- The sample launch with the sentinel removal failing. -/
def sentinelFailsWorld : World :=
  { sampleWorld with removeSentinel := false }

/-- The sample launch with another instance holding the token. -/
def aliveWorld : World :=
  { sampleWorld with tokenAlreadyExists := true }

/-- The sample launch with another instance holding the token and a profile
that cannot be loaded. -/
def aliveNoProfileWorld : World :=
  { sampleWorld with tokenAlreadyExists := true, profileLoads := false }

/-- The sample launch on Windows 2000 (version 5.0). -/
def win2000World : World :=
  { sampleWorld with osVersion := some (5, 0), winVersionIs2000 := true }

/-- The sample launch with a running instance that takes the hand-off. -/
def handOffWorld : World :=
  { sampleWorld with notifyOtherProcess := true }

/-! ## The recovery record of the specification -/

/-- The conditions of the specification under which no recovery record is
written: the crash-test, assertion-test or no-error-dialogs switch, or the
headless marker in the environment. -/
def restartSuppressed (ev : EnvVars) (command_line : CommandLine) (env : Env) : Bool :=
  command_line.HasSwitch Switch.kBrowserCrashTest ||
    command_line.HasSwitch Switch.kBrowserAssertTest ||
    command_line.HasSwitch Switch.kNoErrorDialogs ||
    (env ev.kHeadless).isSome

/-- The record of the specification: title, body and direction marker joined
by `|`. -/
def recoveryRecord (ev : EnvVars) (w : World) : String :=
  w.crashRecoveryTitle ++ "|" ++ w.crashRecoveryContent ++ "|" ++
    (if w.textDirectionIsRtl then ev.kRtlLocale else ev.kLtrLocale)

/-- A command line with the no-error-dialogs switch only. -/
def noErrorDialogsOnly : CommandLine :=
  { switches := [Switch.kNoErrorDialogs] }

/-- The sample launch in a right-to-left locale. -/
def rtlWorld : World :=
  { sampleWorld with textDirectionIsRtl := true }

/-! ## Sample launches for the upgrade gate and the first run -/

/-- The sample launch with a staged executable that is swapped in and relaunched. -/
def upgradeWorld : World :=
  { sampleWorld with swapNewChromeExeIfPresent := true }

/-- The sample launch (a build without assertions) with a staged executable
that is swapped in and a relaunch that fails. -/
def relaunchFailsWorld : World :=
  { sampleWorld with swapNewChromeExeIfPresent := true, relaunchChromeBrowser := false }

/-- The launch of `relaunchFailsWorld` in a build with assertions. -/
def relaunchFailsDebugWorld : World :=
  { relaunchFailsWorld with debugBuild := true }

/-! ## The Notification Channel -/

/-- Modelled from the spec: the state of the Notification Channel.  The class
`BrowserInit::MessageWindow` is not part of the sources; the specification
gives the channel a `create` operation and a lock flag that `lock` sets and
`unlock` clears. -/
structure ChannelState where
  created : Bool
  locked : Bool
  deriving DecidableEq, Repr

/-- The channel at process entry: not created, not locked. -/
def ChannelState.initial : ChannelState :=
  { created := false, locked := false }

/-- Modelled from the spec: the effect of a call on the channel.  `Create`
registers the receiver, `Lock` sets the lock flag, `Unlock` clears it; no
other call of `BrowserMain` touches the channel state. -/
def ChannelState.step (s : ChannelState) : Event → ChannelState
  | Event.call .MessageWindowCreate => { s with created := true }
  | Event.call .MessageWindowLock => { s with locked := true }
  | Event.call .MessageWindowUnlock => { s with locked := false }
  | _ => s

/-- The channel state after the calls of `t`, starting in `s`. -/
def channelAfter (s : ChannelState) (t : List Event) : ChannelState :=
  t.foldl ChannelState.step s

/-- Every call of `t` paired with the channel state in which it is made,
starting in `s`. -/
def channelStates (s : ChannelState) : List Event → List (ChannelState × Event)
  | [] => []
  | e :: t => (s, e) :: channelStates (s.step e) t

/-- The calls on the channel and the call that shows the first-run UI. -/
def Event.isChannelCall : Event → Bool
  | Event.call .MessageWindowCreate => true
  | Event.call .MessageWindowLock => true
  | Event.call .OpenFirstRunDialog => true
  | Event.call .MessageWindowUnlock => true
  | _ => false

/-- The calls of normal operation, made after `PrepareRestartOnCrashEnviroment`
(source lines 425-512). -/
def Event.isNormalOperation : Event → Bool
  | Event.call .WinsockInit => true
  | Event.call .DnsPrefetcherInit => true
  | Event.call .InitCommonControlsEx => true
  | Event.call .ScopedCOMInitializer => true
  | Event.InitRlzDelayed _ => true
  | Event.call .SetResourceProvider => true
  | Event.call .RegisterURLRequestChromeJob => true
  | Event.call .VerifyInstallation => true
  | Event.call .InitBrokerServices => true
  | Event.call .SetChromePluginDataDir => true
  | Event.call .CertStoreInitialize => true
  | Event.call .SetTransientMetricsReportingDisabled => true
  | Event.MetricsSetRecording _ => true
  | Event.call .InstallJankometer => true
  | Event.call .SetDebugDumpPath => true
  | Event.call .ProcessCommandLine => true
  | Event.call .MessageLoopRunAccelerators => true
  | Event.call .BrowserShutdown => true
  | Event.call .ShutdownSingleThreadedCleanup => true
  | _ => false

/-- The calls of a launch that passes every gate, up to and including the
upgrade check that finds nothing staged (source lines 248-403). -/
def passedGatesTrace (w : World) (command_line : CommandLine) : List Event :=
  BrowserMain.startup w command_line
    ++ [Event.call .RegisterAllPrefs, Event.call .ReadLastShutdownInfo]
    ++ [Event.call .NotifyOtherProcess, Event.call .HuntForZombieChromeProcesses]
    ++ [Event.call .SwapNewChromeExeIfPresent]

/-- The calls around the first-run UI (source lines 412-418). -/
def firstRunTrace (w : World) (command_line : CommandLine) : List Event :=
  if is_first_run w command_line then
    [Event.call .MessageWindowLock, Event.call .OpenFirstRunDialog,
      Event.call .MessageWindowUnlock]
  else []

/-- The sample launch on a machine without the first-run sentinel. -/
def firstRunWorld : World :=
  { sampleWorld with isChromeFirstRun := true }

/-- A command line with the first-run switch only. -/
def firstRunOnly : CommandLine :=
  { switches := [Switch.kFirstRun] }

/-! # Theorems -/

/-! ## Facts about the start-up segment -/

/-- Every call of the start-up segment precedes the gates. -/
theorem startup_stage (w : World) (command_line : CommandLine) :
    ∀ e ∈ BrowserMain.startup w command_line, e.stage = 0 := by
  intro e he
  unfold BrowserMain.startup CheckForWin2000 at he
  simp only [List.mem_append, List.mem_cons, List.mem_singleton, List.not_mem_nil,
    or_false, false_or, List.mem_ite_nil_right, List.mem_ite_nil_left] at he
  rcases he with ((((((((((h | h) | h) | h) | h) | h) | h) | h) | h) | h) | h)
  all_goals first
    | (subst h; rfl)
    | (obtain ⟨_, h⟩ := h; subst h; rfl)
    | (rcases h with h | h <;> subst h <;> rfl)
    | (split at h <;> simp at h <;> subst h <;> rfl)
    | (obtain ⟨_, h⟩ := h; split at h <;> simp at h; subst h; rfl)
    | (obtain ⟨_, h | ⟨_, h⟩⟩ := h
       · split at h <;> simp at h
         subst h; rfl
       · subst h; rfl)

/-- The profile-failure exit makes no call of any gate either. -/
theorem BrowserMain_stage_of_no_profile (ev : EnvVars) (w : World) (command_line : CommandLine)
    (env : Env) (hp : w.profileLoads = false) :
    ∀ e ∈ (BrowserMain ev w command_line env).trace, e.stage = 0 := by
  intro e he
  simp only [BrowserMain, hp, Bool.not_false, if_true, List.mem_append, List.mem_cons,
    List.mem_singleton, List.not_mem_nil, or_false, List.mem_ite_nil_right] at he
  rcases he with (h | h) | h
  · exact startup_stage w command_line e h
  · rcases h with h | h | h <;> subst h <;> rfl
  · obtain ⟨_, h⟩ := h
    subst h; rfl

/-- The calls of `DoUninstallTasks` belong to the uninstall gate. -/
theorem DoUninstallTasks_stage (w : World) : ∀ e ∈ (DoUninstallTasks w).2, e.stage = 1 := by
  intro e he
  unfold DoUninstallTasks AskForUninstallConfirmation at he
  cases hc : w.uninstallConfirmed <;> simp [hc] at he
  · subst he; rfl
  · rcases he with h | h | h | h | h <;> subst h <;> rfl

/-- The calls of `HandleIconsCommands` belong to the icon gate. -/
theorem HandleIconsCommands_stage (w : World) (command_line : CommandLine) :
    ∀ e ∈ (HandleIconsCommands w command_line).2, e.stage = 2 := by
  intro e he
  unfold HandleIconsCommands at he
  cases hh : command_line.HasSwitch Switch.kHideIcons
  · simp [hh] at he
  · rcases hv : w.osVersion with _ | ⟨major, minor⟩
    · simp [hh, hv] at he
      subst he; rfl
    · by_cases h6 : 6 ≤ major
      · cases hc : w.hideIconsConfirmed <;> simp [hh, hv, h6, hc] at he
        · rcases he with h | h <;> subst h <;> rfl
        · rcases he with h | h | h <;> subst h <;> rfl
      · by_cases h5 : major = 5 ∧ 1 ≤ minor
        · cases hc : w.hideIconsConfirmed <;> simp [hh, hv, h6, h5, hc] at he
          · rcases he with h | h <;> subst h <;> rfl
          · rcases he with h | h | h <;> subst h <;> rfl
        · simp [hh, hv, h6, h5] at he
          subst he; rfl

/-- The calls of `DoUpgradeTasks` belong to the upgrade gate. -/
theorem DoUpgradeTasks_stage (w : World) : ∀ e ∈ (DoUpgradeTasks w).2, e.stage = 6 := by
  intro e he
  unfold DoUpgradeTasks at he
  cases h1 : w.swapNewChromeExeIfPresent <;> cases h2 : w.relaunchChromeBrowser <;>
    cases h3 : w.debugBuild <;> simp [h1, h2, h3] at he
  all_goals first
    | (subst he; rfl)
    | (rcases he with h | h <;> subst h <;> rfl)

/-- The code of `DoUninstallTasks` is one of three. -/
theorem DoUninstallTasks_codes (w : World) :
    (DoUninstallTasks w).1 = ExitCode.UNINSTALL_USER_CANCEL ∨
    (DoUninstallTasks w).1 = ExitCode.UNINSTALL_DELETE_FILE_ERROR ∨
    (DoUninstallTasks w).1 = ExitCode.NORMAL_EXIT := by
  unfold DoUninstallTasks AskForUninstallConfirmation
  cases w.uninstallConfirmed <;> cases w.removeSentinel <;> cases w.removeDesktopShortcut <;>
    cases w.removeQuickLaunchShortcut <;> simp

/-! ## `BrowserMain`, exit by exit -/

/-- The run that ends at the profile-failure exit (lines 332-352). -/
theorem BrowserMain_of_no_profile (ev : EnvVars) (w : World) (command_line : CommandLine)
    (env : Env) (hp : w.profileLoads = false) :
    BrowserMain ev w command_line env =
      ⟨Outcome.returned ExitCode.NORMAL_EXIT,
        BrowserMain.startup w command_line
          ++ [Event.call .RunUserDataDirDialog, Event.call .MessageLoopRun,
        Event.call .CleanupSharedInstance]
          ++ (if w.chosenUserDataDir ≠ "" then [Event.LaunchApp w.chosenUserDataDir] else []),
        env⟩ := by
  simp [BrowserMain, hp]

/-- The run that ends at the uninstall gate (lines 366-376). -/
theorem BrowserMain_of_uninstall (ev : EnvVars) (w : World) (command_line : CommandLine)
    (env : Env) (hp : w.profileLoads = true)
    (h1 : command_line.HasSwitch Switch.kUninstall = true) :
    BrowserMain ev w command_line env =
      ⟨Gate.value w command_line Gate.uninstall,
        BrowserMain.startup w command_line
          ++ [Event.call .RegisterAllPrefs, Event.call .ReadLastShutdownInfo]
          ++ (if w.tokenAlreadyExists then [Event.MessageBox MessageId.IDS_UNINSTALL_CLOSE_APP]
              else (DoUninstallTasks w).2),
        env⟩ := by
  cases h0 : w.tokenAlreadyExists <;> simp [BrowserMain, hp, h1, h0, Gate.value]

/-- The run that ends at the icon gate (lines 378-380). -/
theorem BrowserMain_of_icons (ev : EnvVars) (w : World) (command_line : CommandLine)
    (env : Env) (hp : w.profileLoads = true)
    (h1 : command_line.HasSwitch Switch.kUninstall = false)
    (h2 : (command_line.HasSwitch Switch.kHideIcons ||
      command_line.HasSwitch Switch.kShowIcons) = true) :
    BrowserMain ev w command_line env =
      ⟨Gate.value w command_line Gate.iconToggle,
        BrowserMain.startup w command_line
          ++ [Event.call .RegisterAllPrefs, Event.call .ReadLastShutdownInfo]
          ++ (HandleIconsCommands w command_line).2,
        env⟩ := by
  simp only [BrowserMain, hp, h1, h2, Gate.value]
  simp

/-- The run that ends at the make-default-browser gate (lines 381-387). -/
theorem BrowserMain_of_make_default (ev : EnvVars) (w : World) (command_line : CommandLine)
    (env : Env) (hp : w.profileLoads = true)
    (h1 : command_line.HasSwitch Switch.kUninstall = false)
    (h2 : (command_line.HasSwitch Switch.kHideIcons ||
      command_line.HasSwitch Switch.kShowIcons) = false)
    (h3 : command_line.HasSwitch Switch.kMakeDefaultBrowser = true) :
    BrowserMain ev w command_line env =
      ⟨Gate.value w command_line Gate.makeDefaultBrowser,
        BrowserMain.startup w command_line
          ++ [Event.call .RegisterAllPrefs, Event.call .ReadLastShutdownInfo]
          ++ [Event.call .SetAsDefaultBrowser],
        env⟩ := by
  simp only [BrowserMain, hp, h1, h2, h3, Gate.value]
  cases w.setAsDefaultBrowser <;> simp

/-- The run that ends at the import gate (lines 391-392). -/
theorem BrowserMain_of_import (ev : EnvVars) (w : World) (command_line : CommandLine)
    (env : Env) (hp : w.profileLoads = true)
    (h1 : command_line.HasSwitch Switch.kUninstall = false)
    (h2 : (command_line.HasSwitch Switch.kHideIcons ||
      command_line.HasSwitch Switch.kShowIcons) = false)
    (h3 : command_line.HasSwitch Switch.kMakeDefaultBrowser = false)
    (h4 : command_line.HasSwitch Switch.kImport = true) :
    BrowserMain ev w command_line env =
      ⟨Gate.value w command_line Gate.importSettings,
        BrowserMain.startup w command_line
          ++ [Event.call .RegisterAllPrefs, Event.call .ReadLastShutdownInfo]
          ++ [Event.call .ImportWithUI],
        env⟩ := by
  simp only [BrowserMain, hp, h1, h2, h3, h4, Gate.value]
  simp

/-- The run that ends at the hand-off to the running instance (lines 395-396). -/
theorem BrowserMain_of_hand_off (ev : EnvVars) (w : World) (command_line : CommandLine)
    (env : Env) (hp : w.profileLoads = true)
    (h1 : command_line.HasSwitch Switch.kUninstall = false)
    (h2 : (command_line.HasSwitch Switch.kHideIcons ||
      command_line.HasSwitch Switch.kShowIcons) = false)
    (h3 : command_line.HasSwitch Switch.kMakeDefaultBrowser = false)
    (h4 : command_line.HasSwitch Switch.kImport = false)
    (h5 : w.notifyOtherProcess = true) :
    BrowserMain ev w command_line env =
      ⟨Gate.value w command_line Gate.handOff,
        BrowserMain.startup w command_line
          ++ [Event.call .RegisterAllPrefs, Event.call .ReadLastShutdownInfo]
          ++ [Event.call .NotifyOtherProcess],
        env⟩ := by
  simp only [BrowserMain, hp, h1, h2, h3, h4, h5, Gate.value]
  simp

/-- The run that ends at the upgrade gate (lines 398-403). -/
theorem BrowserMain_of_upgrade (ev : EnvVars) (w : World) (command_line : CommandLine)
    (env : Env) (hp : w.profileLoads = true)
    (h1 : command_line.HasSwitch Switch.kUninstall = false)
    (h2 : (command_line.HasSwitch Switch.kHideIcons ||
      command_line.HasSwitch Switch.kShowIcons) = false)
    (h3 : command_line.HasSwitch Switch.kMakeDefaultBrowser = false)
    (h4 : command_line.HasSwitch Switch.kImport = false)
    (h5 : w.notifyOtherProcess = false)
    (h6 : w.swapNewChromeExeIfPresent = true) :
    BrowserMain ev w command_line env =
      ⟨Gate.value w command_line Gate.upgradeRelaunch,
        BrowserMain.startup w command_line
          ++ [Event.call .RegisterAllPrefs, Event.call .ReadLastShutdownInfo]
          ++ [Event.call .NotifyOtherProcess, Event.call .HuntForZombieChromeProcesses]
          ++ (DoUpgradeTasks w).2,
        env⟩ := by
  simp only [BrowserMain, hp, h1, h2, h3, h4, h5, Gate.value, DoUpgradeTasks, h6]
  cases w.relaunchChromeBrowser <;> cases w.debugBuild <;> simp

/-- The run that passes every gate (lines 405-512). -/
theorem BrowserMain_of_fall_through (ev : EnvVars) (w : World) (command_line : CommandLine)
    (env : Env) (hp : w.profileLoads = true)
    (h1 : command_line.HasSwitch Switch.kUninstall = false)
    (h2 : (command_line.HasSwitch Switch.kHideIcons ||
      command_line.HasSwitch Switch.kShowIcons) = false)
    (h3 : command_line.HasSwitch Switch.kMakeDefaultBrowser = false)
    (h4 : command_line.HasSwitch Switch.kImport = false)
    (h5 : w.notifyOtherProcess = false)
    (h6 : w.swapNewChromeExeIfPresent = false) :
    BrowserMain ev w command_line env =
      BrowserMain.run w command_line
        (BrowserMain.startup w command_line
          ++ [Event.call .RegisterAllPrefs, Event.call .ReadLastShutdownInfo]
          ++ [Event.call .NotifyOtherProcess, Event.call .HuntForZombieChromeProcesses]
          ++ [Event.call .SwapNewChromeExeIfPresent]
          ++ [Event.call .MessageWindowCreate]
          ++ (if is_first_run w command_line then
                [Event.call .MessageWindowLock, Event.call .OpenFirstRunDialog,
                  Event.call .MessageWindowUnlock]
              else [])
          ++ (PrepareRestartOnCrashEnviroment ev w command_line env).1)
        (PrepareRestartOnCrashEnviroment ev w command_line env).2 := by
  simp only [BrowserMain, hp, h1, h2, h3, h4, h5, DoUpgradeTasks, h6]
  simp

/-- With the profile loaded, the calls made before the first gate have stage `0`. -/
theorem loaded_stage (w : World) (command_line : CommandLine) :
    ∀ e ∈ BrowserMain.startup w command_line
      ++ [Event.call .RegisterAllPrefs, Event.call .ReadLastShutdownInfo], e.stage = 0 := by
  intro e he
  rcases List.mem_append.1 he with h | h
  · exact startup_stage w command_line e h
  · simp only [List.mem_cons, List.mem_singleton, List.not_mem_nil, or_false] at h
    rcases h with h | h <;> subst h <;> rfl

/-- A bound on the stage of the calls of two segments run one after the other. -/
theorem stage_le_append (l₁ l₂ : List Event) (a b n : Nat) (h₁ : ∀ e ∈ l₁, e.stage = a)
    (h₂ : ∀ e ∈ l₂, e.stage = b) (ha : a ≤ n) (hb : b ≤ n) : ∀ e ∈ l₁ ++ l₂, e.stage ≤ n := by
  intro e he
  rcases List.mem_append.1 he with h | h
  · rw [h₁ e h]; exact ha
  · rw [h₂ e h]; exact hb

/-- The calls of a run that ends at the uninstall gate have stage at most `1`. -/
theorem BrowserMain_stage_of_uninstall (ev : EnvVars) (w : World) (command_line : CommandLine)
    (env : Env) (hp : w.profileLoads = true)
    (h1 : command_line.HasSwitch Switch.kUninstall = true) :
    ∀ e ∈ (BrowserMain ev w command_line env).trace, e.stage ≤ 1 := by
  rw [BrowserMain_of_uninstall ev w command_line env hp h1]
  refine stage_le_append _ _ 0 1 1 (loaded_stage w command_line) ?_ (by decide) (by decide)
  intro e he
  cases h0 : w.tokenAlreadyExists
  · rw [h0] at he
    exact DoUninstallTasks_stage w e he
  · rw [h0] at he
    simp only [if_true, List.mem_singleton] at he
    subst he; rfl

/-- The last segment only adds calls to those made so far. -/
theorem run_trace_extends (w : World) (command_line : CommandLine) (t : List Event) (env : Env) :
    ∃ rest, (BrowserMain.run w command_line t env).trace = t ++ rest := by
  unfold BrowserMain.run
  cases HandleErrorTestParameters w command_line <;>
    simp only [List.append_assoc] <;> exact ⟨_, rfl⟩

/-- The last segment leaves the environment block as it is. -/
theorem run_env (w : World) (command_line : CommandLine) (t : List Event) (env : Env) :
    (BrowserMain.run w command_line t env).env = env := by
  unfold BrowserMain.run
  cases HandleErrorTestParameters w command_line <;> rfl

/-- Every launch begins with the start-up segment. -/
theorem BrowserMain_trace_extends (ev : EnvVars) (w : World) (command_line : CommandLine)
    (env : Env) :
    ∃ rest, (BrowserMain ev w command_line env).trace
      = BrowserMain.startup w command_line ++ rest := by
  cases hp : w.profileLoads
  · rw [BrowserMain_of_no_profile ev w command_line env hp]
    simp only [List.append_assoc]; exact ⟨_, rfl⟩
  cases h1 : command_line.HasSwitch Switch.kUninstall
  swap
  · rw [BrowserMain_of_uninstall ev w command_line env hp h1]
    simp only [List.append_assoc]; exact ⟨_, rfl⟩
  cases h2 : (command_line.HasSwitch Switch.kHideIcons ||
    command_line.HasSwitch Switch.kShowIcons)
  swap
  · rw [BrowserMain_of_icons ev w command_line env hp h1 h2]
    simp only [List.append_assoc]; exact ⟨_, rfl⟩
  cases h3 : command_line.HasSwitch Switch.kMakeDefaultBrowser
  swap
  · rw [BrowserMain_of_make_default ev w command_line env hp h1 h2 h3]
    simp only [List.append_assoc]; exact ⟨_, rfl⟩
  cases h4 : command_line.HasSwitch Switch.kImport
  swap
  · rw [BrowserMain_of_import ev w command_line env hp h1 h2 h3 h4]
    simp only [List.append_assoc]; exact ⟨_, rfl⟩
  cases h5 : w.notifyOtherProcess
  swap
  · rw [BrowserMain_of_hand_off ev w command_line env hp h1 h2 h3 h4 h5]
    simp only [List.append_assoc]; exact ⟨_, rfl⟩
  cases h6 : w.swapNewChromeExeIfPresent
  swap
  · rw [BrowserMain_of_upgrade ev w command_line env hp h1 h2 h3 h4 h5 h6]
    simp only [List.append_assoc]; exact ⟨_, rfl⟩
  rw [BrowserMain_of_fall_through ev w command_line env hp h1 h2 h3 h4 h5 h6]
  obtain ⟨rest, hr⟩ := run_trace_extends w command_line
    (BrowserMain.startup w command_line
      ++ [Event.call .RegisterAllPrefs, Event.call .ReadLastShutdownInfo]
      ++ [Event.call .NotifyOtherProcess, Event.call .HuntForZombieChromeProcesses]
      ++ [Event.call .SwapNewChromeExeIfPresent]
      ++ [Event.call .MessageWindowCreate]
      ++ (if is_first_run w command_line then
            [Event.call .MessageWindowLock, Event.call .OpenFirstRunDialog,
              Event.call .MessageWindowUnlock]
          else [])
      ++ (PrepareRestartOnCrashEnviroment ev w command_line env).1)
    (PrepareRestartOnCrashEnviroment ev w command_line env).2
  rw [hr]
  simp only [List.append_assoc]; exact ⟨_, rfl⟩

/-- A launch whose profile loads ends at the first gate whose condition holds:
with that gate's value, with calls of that gate or of earlier stages only, and
with the environment block untouched. -/
theorem BrowserMain_at_first_gate (ev : EnvVars) (w : World) (command_line : CommandLine)
    (env : Env) (hp : w.profileLoads = true) (g : Gate)
    (hg1 : firstGate w command_line = some g) :
    (BrowserMain ev w command_line env).result = Gate.value w command_line g ∧
    (∀ e ∈ (BrowserMain ev w command_line env).trace, e.stage ≤ g.rank) ∧
    (BrowserMain ev w command_line env).env = env := by
  have hl := loaded_stage w command_line
  cases h1 : command_line.HasSwitch Switch.kUninstall
  · cases h2 : (command_line.HasSwitch Switch.kHideIcons ||
        command_line.HasSwitch Switch.kShowIcons)
    · cases h3 : command_line.HasSwitch Switch.kMakeDefaultBrowser
      · cases h4 : command_line.HasSwitch Switch.kImport
        · cases h5 : w.notifyOtherProcess
          · cases h6 : w.swapNewChromeExeIfPresent
            · simp [firstGate, Gate.order, Gate.condition, h1, h2, h3, h4, h5, h6] at hg1
            · simp [firstGate, Gate.order, Gate.condition, h1, h2, h3, h4, h5, h6] at hg1
              subst hg1
              rw [BrowserMain_of_upgrade ev w command_line env hp h1 h2 h3 h4 h5 h6]
              refine ⟨rfl, ?_, rfl⟩
              intro e he
              rcases List.mem_append.1 he with h | h
              · rcases List.mem_append.1 h with h | h
                · rw [hl e h]; decide
                · simp only [List.mem_cons, List.mem_singleton, List.not_mem_nil,
                    or_false] at h
                  rcases h with h | h <;> subst h <;> decide
              · rw [DoUpgradeTasks_stage w e h]; decide
          · simp [firstGate, Gate.order, Gate.condition, h1, h2, h3, h4, h5] at hg1
            subst hg1
            rw [BrowserMain_of_hand_off ev w command_line env hp h1 h2 h3 h4 h5]
            refine ⟨rfl, ?_, rfl⟩
            refine stage_le_append _ _ 0 5 _ hl ?_ (by decide) (by decide)
            intro e he
            simp only [List.mem_singleton] at he
            subst he; rfl
        · simp [firstGate, Gate.order, Gate.condition, h1, h2, h3, h4] at hg1
          subst hg1
          rw [BrowserMain_of_import ev w command_line env hp h1 h2 h3 h4]
          refine ⟨rfl, ?_, rfl⟩
          refine stage_le_append _ _ 0 4 _ hl ?_ (by decide) (by decide)
          intro e he
          simp only [List.mem_singleton] at he
          subst he; rfl
      · simp [firstGate, Gate.order, Gate.condition, h1, h2, h3] at hg1
        subst hg1
        rw [BrowserMain_of_make_default ev w command_line env hp h1 h2 h3]
        refine ⟨rfl, ?_, rfl⟩
        refine stage_le_append _ _ 0 3 _ hl ?_ (by decide) (by decide)
        intro e he
        simp only [List.mem_singleton] at he
        subst he; rfl
    · simp [firstGate, Gate.order, Gate.condition, h1, h2] at hg1
      subst hg1
      rw [BrowserMain_of_icons ev w command_line env hp h1 h2]
      exact ⟨rfl, stage_le_append _ _ 0 2 _ hl (HandleIconsCommands_stage w command_line)
        (by decide) (by decide), rfl⟩
  · simp [firstGate, Gate.order, Gate.condition, h1] at hg1
    subst hg1
    refine ⟨?_, BrowserMain_stage_of_uninstall ev w command_line env hp h1, ?_⟩ <;>
      rw [BrowserMain_of_uninstall ev w command_line env hp h1]


/-- With the uninstall switch the launch ends with one of the uninstall codes
and never starts the import. -/
theorem BrowserMain_uninstall_beats_import (ev : EnvVars) (w : World)
    (command_line : CommandLine) (env : Env)
    (h1 : command_line.HasSwitch Switch.kUninstall = true) :
    (BrowserMain ev w command_line env).result ∈
      [Outcome.returned ExitCode.UNINSTALL_CHROME_ALIVE,
        Outcome.returned ExitCode.UNINSTALL_USER_CANCEL,
        Outcome.returned ExitCode.UNINSTALL_DELETE_FILE_ERROR,
        Outcome.returned ExitCode.NORMAL_EXIT] ∧
    Event.call .ImportWithUI ∉ (BrowserMain ev w command_line env).trace := by
  cases hp : w.profileLoads
  · constructor
    · rw [BrowserMain_of_no_profile ev w command_line env hp]
      simp
    · intro hmem
      have := BrowserMain_stage_of_no_profile ev w command_line env hp _ hmem
      simp [Event.stage] at this
  · constructor
    · rw [BrowserMain_of_uninstall ev w command_line env hp h1]
      simp only [Gate.value]
      cases w.tokenAlreadyExists
      · rcases DoUninstallTasks_codes w with h | h | h <;> simp [h]
      · simp
    · intro hmem
      have := BrowserMain_stage_of_uninstall ev w command_line env hp h1 _ hmem
      simp [Event.stage] at this


/-- Claim C1.  Once the profile has loaded, the gates are decided in the order
uninstall, icon toggle, make-default-browser, import, hand-off, upgrade
relaunch: the launch ends with the value of the first gate of that order whose
condition holds, every call it makes belongs to that gate or to an earlier
stage, and the environment block is untouched.  Whenever the command line
carries both the uninstall and the import switch the result is one of
UNINSTALL_CHROME_ALIVE, UNINSTALL_USER_CANCEL, UNINSTALL_DELETE_FILE_ERROR,
NORMAL_EXIT and `FirstRun::ImportWithUI` is not called. -/
theorem BrowserMain_gate_precedence (ev : EnvVars) (w : World) (command_line : CommandLine)
    (env : Env) :
    (w.profileLoads = true → ∀ g, firstGate w command_line = some g →
      (BrowserMain ev w command_line env).result = Gate.value w command_line g ∧
      (∀ e ∈ (BrowserMain ev w command_line env).trace, e.stage ≤ g.rank) ∧
      (BrowserMain ev w command_line env).env = env) ∧
    (command_line.HasSwitch Switch.kUninstall = true →
      command_line.HasSwitch Switch.kImport = true →
      (BrowserMain ev w command_line env).result ∈
        [Outcome.returned ExitCode.UNINSTALL_CHROME_ALIVE,
          Outcome.returned ExitCode.UNINSTALL_USER_CANCEL,
          Outcome.returned ExitCode.UNINSTALL_DELETE_FILE_ERROR,
          Outcome.returned ExitCode.NORMAL_EXIT] ∧
      Event.call .ImportWithUI ∉ (BrowserMain ev w command_line env).trace) := by
  exact ⟨fun hp g hg1 => BrowserMain_at_first_gate ev w command_line env hp g hg1,
    fun h1 _ => BrowserMain_uninstall_beats_import ev w command_line env h1⟩

/-- Claim C1, at a launch with both the uninstall and the import switch, all
removals succeeding and a recovery record left in the environment. -/
theorem BrowserMain_gate_precedence_witness :
    (BrowserMain chromeEnvVars sampleWorld uninstallAndImport leftoverEnv).result
        = Outcome.returned ExitCode.NORMAL_EXIT ∧
      (BrowserMain chromeEnvVars sampleWorld uninstallAndImport leftoverEnv).env
        = leftoverEnv ∧
      Event.call .ImportWithUI ∉
        (BrowserMain chromeEnvVars sampleWorld uninstallAndImport leftoverEnv).trace :=
  have h := BrowserMain_gate_precedence chromeEnvVars sampleWorld uninstallAndImport leftoverEnv
  have h1 := h.1 (by decide) Gate.uninstall (by decide)
  ⟨h1.1.trans (by decide), h1.2.2, (h.2 (by decide) (by decide)).2⟩

/-! ## The Instance Token name -/

/-- Units that agree up to letter case are sent to the same unit. -/
theorem tolower_of_sameUpToCase (a b : Nat) (h : sameUpToCase a b = true) :
    tolower (if a = 92 then 33 else a) % 65536 = tolower (if b = 92 then 33 else b) % 65536 := by
  simp only [sameUpToCase, Bool.or_eq_true, Bool.and_eq_true, decide_eq_true_eq,
    beq_iff_eq] at h
  rcases h with (h | ⟨⟨h1, h2⟩, h3⟩) | ⟨⟨h1, h2⟩, h3⟩
  · subst h; rfl
  · subst h3
    have ha : a ≠ 92 := by omega
    have hb : a + 32 ≠ 92 := by omega
    have hc : ¬ (a + 32 ≤ 90) := by omega
    simp [tolower, ha, hb, h1, h2, hc]
  · subst h3
    have ha : b ≠ 92 := by omega
    have hb : b + 32 ≠ 92 := by omega
    have hc : ¬ (b + 32 ≤ 90) := by omega
    simp [tolower, ha, hb, h1, h2, hc]

/-- The token name as a single pass over the path. -/
theorem InstanceTokenName_cons (a : Nat) (p : List Nat) :
    InstanceTokenName (a :: p)
      = (tolower (if a = 92 then 33 else a) % 65536) :: InstanceTokenName p := by
  simp [InstanceTokenName]

/-- The launch hands the derived name to `CreateEvent`. -/
theorem BrowserMain_creates_token (ev : EnvVars) (w : World) (command_line : CommandLine)
    (env : Env) :
    Event.CreateEvent (InstanceTokenName w.exePath)
      ∈ (BrowserMain ev w command_line env).trace := by
  have hs : Event.CreateEvent (InstanceTokenName w.exePath)
      ∈ BrowserMain.startup w command_line := by
    simp [BrowserMain.startup]
  obtain ⟨rest, hr⟩ := BrowserMain_trace_extends ev w command_line env
  rw [hr]
  exact List.mem_append_left _ hs

/-- Claim C2, as amended.  Two executable paths that differ only in the case
of letters `A`..`Z` get the same Instance Token name, and a launch from the
one hands `CreateEvent` the name derived from the other. -/
theorem InstanceTokenName_case_insensitive (p q : List Nat)
    (h : differOnlyInCase p q = true) :
    InstanceTokenName p = InstanceTokenName q ∧
    ∀ (ev : EnvVars) (w : World) (command_line : CommandLine) (env : Env), w.exePath = p →
      Event.CreateEvent (InstanceTokenName q) ∈ (BrowserMain ev w command_line env).trace := by
  have key : ∀ p q : List Nat, differOnlyInCase p q = true →
      InstanceTokenName p = InstanceTokenName q := by
    intro p
    induction p with
    | nil =>
      intro q hq
      cases q with
      | nil => rfl
      | cons b q => simp [differOnlyInCase, pathsAgree] at hq
    | cons a p ih =>
      intro q hq
      cases q with
      | nil => simp [differOnlyInCase, pathsAgree] at hq
      | cons b q =>
        simp only [differOnlyInCase, pathsAgree, Bool.and_eq_true] at hq
        rw [InstanceTokenName_cons, InstanceTokenName_cons, tolower_of_sameUpToCase a b hq.1,
          ih q hq.2]
  refine ⟨key p q h, ?_⟩
  intro ev w command_line env hw
  rw [← key p q h, ← hw]
  exact BrowserMain_creates_token ev w command_line env

/-- Claim C2 at the path of `sampleWorld` and its lower-case variant. -/
theorem InstanceTokenName_case_insensitive_witness :
    differOnlyInCase sampleWorld.exePath lowerCasePath = true ∧
    InstanceTokenName sampleWorld.exePath = InstanceTokenName lowerCasePath :=
  ⟨by decide, (InstanceTokenName_case_insensitive sampleWorld.exePath lowerCasePath
    (by decide)).1⟩

/-- Claim C2 as stated fails: `C:\\a` and `C:/a` differ only in separator style
and get different names, since the forward slash is left as it is. -/
theorem InstanceTokenName_separator_counterexample :
    differOnlyInCaseOrSeparator backslashPath forwardSlashPath = true ∧
    InstanceTokenName backslashPath = [99, 58, 33, 97] ∧
    InstanceTokenName forwardSlashPath = [99, 58, 47, 97] ∧
    InstanceTokenName backslashPath ≠ InstanceTokenName forwardSlashPath := by
  decide

/-! ## The uninstall gate -/

/-- Claim C3.  Once the user confirms the prompt, `DoUninstallTasks` attempts
the three removals in order whatever their outcomes, returns NORMAL_EXIT
exactly when all three succeed and UNINSTALL_DELETE_FILE_ERROR as soon as one
fails; in particular when only the sentinel removal fails. -/
theorem DoUninstallTasks_confirmed (w : World) (h : w.uninstallConfirmed = true) :
    (DoUninstallTasks w).2 =
      [Event.MessageBox MessageId.IDS_UNINSTALL_VERIFY, Event.call .LogInfo,
        Event.call .RemoveSentinel, Event.call .RemoveChromeDesktopShortcut,
        Event.call .RemoveChromeQuickLaunchShortcut] ∧
    ((DoUninstallTasks w).1 = ExitCode.NORMAL_EXIT ↔
      (w.removeSentinel = true ∧ w.removeDesktopShortcut = true ∧
        w.removeQuickLaunchShortcut = true)) ∧
    (¬ (w.removeSentinel = true ∧ w.removeDesktopShortcut = true ∧
        w.removeQuickLaunchShortcut = true) →
      (DoUninstallTasks w).1 = ExitCode.UNINSTALL_DELETE_FILE_ERROR) ∧
    (w.removeDesktopShortcut = true → w.removeQuickLaunchShortcut = true →
      w.removeSentinel = false →
      (DoUninstallTasks w).1 = ExitCode.UNINSTALL_DELETE_FILE_ERROR) := by
  unfold DoUninstallTasks AskForUninstallConfirmation
  cases h1 : w.removeSentinel <;> cases h2 : w.removeDesktopShortcut <;>
    cases h3 : w.removeQuickLaunchShortcut <;> simp [h]

/-- Claim C3 at a launch where the shortcuts go and the sentinel stays. -/
theorem DoUninstallTasks_confirmed_witness :
    sentinelFailsWorld.uninstallConfirmed = true ∧
    (DoUninstallTasks sentinelFailsWorld).1 = ExitCode.UNINSTALL_DELETE_FILE_ERROR ∧
    (DoUninstallTasks sentinelFailsWorld).2 =
      [Event.MessageBox MessageId.IDS_UNINSTALL_VERIFY, Event.call .LogInfo,
        Event.call .RemoveSentinel, Event.call .RemoveChromeDesktopShortcut,
        Event.call .RemoveChromeQuickLaunchShortcut] :=
  have h := DoUninstallTasks_confirmed sentinelFailsWorld (by decide)
  ⟨by decide, h.2.2.2 (by decide) (by decide) (by decide), h.1⟩

/-- Claim C4.  With the uninstall switch, no other instance detected and the
prompt declined, the uninstall gate returns UNINSTALL_USER_CANCEL after the
prompt alone; the launch that reaches the gate returns that code, and no
launch under these conditions calls `FirstRun::RemoveSentinel`,
`RemoveChromeDesktopShortcut` or `RemoveChromeQuickLaunchShortcut`. -/
theorem uninstall_declined (ev : EnvVars) (w : World) (command_line : CommandLine) (env : Env)
    (h1 : command_line.HasSwitch Switch.kUninstall = true)
    (h2 : w.tokenAlreadyExists = false) (h3 : w.uninstallConfirmed = false) :
    DoUninstallTasks w =
      (ExitCode.UNINSTALL_USER_CANCEL, [Event.MessageBox MessageId.IDS_UNINSTALL_VERIFY]) ∧
    (w.profileLoads = true →
      (BrowserMain ev w command_line env).result
        = Outcome.returned ExitCode.UNINSTALL_USER_CANCEL ∧
      (BrowserMain ev w command_line env).trace
        = BrowserMain.startup w command_line
          ++ [Event.call .RegisterAllPrefs, Event.call .ReadLastShutdownInfo,
            Event.MessageBox MessageId.IDS_UNINSTALL_VERIFY]) ∧
    Event.call .RemoveSentinel ∉ (BrowserMain ev w command_line env).trace ∧
    Event.call .RemoveChromeDesktopShortcut ∉ (BrowserMain ev w command_line env).trace ∧
    Event.call .RemoveChromeQuickLaunchShortcut ∉ (BrowserMain ev w command_line env).trace := by
  have hd : DoUninstallTasks w =
      (ExitCode.UNINSTALL_USER_CANCEL, [Event.MessageBox MessageId.IDS_UNINSTALL_VERIFY]) := by
    simp [DoUninstallTasks, AskForUninstallConfirmation, h3]
  have hs := startup_stage w command_line
  refine ⟨hd, ?_, ?_⟩
  · intro hp
    rw [BrowserMain_of_uninstall ev w command_line env hp h1]
    simp [Gate.value, h2, hd]
  · cases hp : w.profileLoads
    · have hz := BrowserMain_stage_of_no_profile ev w command_line env hp
      refine ⟨fun hm => ?_, fun hm => ?_, fun hm => ?_⟩ <;>
        · have := hz _ hm
          simp [Event.stage] at this
    · rw [BrowserMain_of_uninstall ev w command_line env hp h1]
      simp only [h2, hd, Bool.false_eq_true, if_false, List.mem_append, List.mem_cons,
        List.mem_singleton, List.not_mem_nil, or_false, not_or]
      refine ⟨⟨⟨fun hm => ?_, by simp⟩, by simp⟩, ⟨⟨fun hm => ?_, by simp⟩, by simp⟩,
        ⟨⟨fun hm => ?_, by simp⟩, by simp⟩⟩ <;>
        · have := hs _ hm
          simp [Event.stage] at this

/-- Claim C4 at the sample launch with the prompt declined. -/
theorem uninstall_declined_witness :
    (BrowserMain chromeEnvVars declineWorld uninstallOnly emptyEnv).result
      = Outcome.returned ExitCode.UNINSTALL_USER_CANCEL ∧
    Event.call .RemoveSentinel
      ∉ (BrowserMain chromeEnvVars declineWorld uninstallOnly emptyEnv).trace ∧
    Event.call .RemoveChromeDesktopShortcut
      ∉ (BrowserMain chromeEnvVars declineWorld uninstallOnly emptyEnv).trace ∧
    Event.call .RemoveChromeQuickLaunchShortcut
      ∉ (BrowserMain chromeEnvVars declineWorld uninstallOnly emptyEnv).trace :=
  have h := uninstall_declined chromeEnvVars declineWorld uninstallOnly emptyEnv
    (by decide) (by decide) (by decide)
  ⟨(h.2.1 (by decide)).1, h.2.2⟩

/-- Claim C5 as stated fails: with the uninstall switch and the token already
there, a launch whose profile cannot be loaded leaves at the profile-failure
exit with NORMAL_EXIT, before the uninstall gate. -/
theorem uninstall_alive_counterexample :
    uninstallOnly.HasSwitch Switch.kUninstall = true ∧
    aliveNoProfileWorld.tokenAlreadyExists = true ∧
    (BrowserMain chromeEnvVars aliveNoProfileWorld uninstallOnly emptyEnv).result
      = Outcome.returned ExitCode.NORMAL_EXIT ∧
    (BrowserMain chromeEnvVars aliveNoProfileWorld uninstallOnly emptyEnv).result
      ≠ Outcome.returned ExitCode.UNINSTALL_CHROME_ALIVE := by
  decide

/-- Claim C5, as amended.  With the uninstall switch and the token already
there, whatever the other switches: a launch whose profile loads returns
UNINSTALL_CHROME_ALIVE after the close-the-app box, a launch whose profile
does not load returns NORMAL_EXIT, and neither asks for the uninstall
confirmation nor attempts any of the three removals. -/
theorem uninstall_alive (ev : EnvVars) (w : World) (command_line : CommandLine) (env : Env)
    (h1 : command_line.HasSwitch Switch.kUninstall = true)
    (h2 : w.tokenAlreadyExists = true) :
    (w.profileLoads = true →
      (BrowserMain ev w command_line env).result
        = Outcome.returned ExitCode.UNINSTALL_CHROME_ALIVE ∧
      (BrowserMain ev w command_line env).trace
        = BrowserMain.startup w command_line
          ++ [Event.call .RegisterAllPrefs, Event.call .ReadLastShutdownInfo,
            Event.MessageBox MessageId.IDS_UNINSTALL_CLOSE_APP]) ∧
    (w.profileLoads = false →
      (BrowserMain ev w command_line env).result = Outcome.returned ExitCode.NORMAL_EXIT) ∧
    Event.MessageBox MessageId.IDS_UNINSTALL_VERIFY
      ∉ (BrowserMain ev w command_line env).trace ∧
    Event.call .RemoveSentinel ∉ (BrowserMain ev w command_line env).trace ∧
    Event.call .RemoveChromeDesktopShortcut ∉ (BrowserMain ev w command_line env).trace ∧
    Event.call .RemoveChromeQuickLaunchShortcut ∉ (BrowserMain ev w command_line env).trace := by
  have hs := startup_stage w command_line
  refine ⟨?_, ?_, ?_⟩
  · intro hp
    rw [BrowserMain_of_uninstall ev w command_line env hp h1]
    simp [Gate.value, h2]
  · intro hp
    rw [BrowserMain_of_no_profile ev w command_line env hp]
  · cases hp : w.profileLoads
    · have hz := BrowserMain_stage_of_no_profile ev w command_line env hp
      refine ⟨fun hm => ?_, fun hm => ?_, fun hm => ?_, fun hm => ?_⟩ <;>
        · have := hz _ hm
          simp [Event.stage] at this
    · rw [BrowserMain_of_uninstall ev w command_line env hp h1]
      simp only [h2, if_true, List.mem_append, List.mem_cons,
        List.mem_singleton, List.not_mem_nil, or_false, not_or]
      refine ⟨⟨⟨fun hm => ?_, by simp⟩, by simp⟩, ⟨⟨fun hm => ?_, by simp⟩, by simp⟩,
        ⟨⟨fun hm => ?_, by simp⟩, by simp⟩, ⟨⟨fun hm => ?_, by simp⟩, by simp⟩⟩ <;>
        · have := hs _ hm
          simp [Event.stage] at this

/-- Claim C5, as amended, at the sample launch with the token already there. -/
theorem uninstall_alive_witness :
    (BrowserMain chromeEnvVars aliveWorld uninstallAndImport emptyEnv).result
      = Outcome.returned ExitCode.UNINSTALL_CHROME_ALIVE ∧
    Event.MessageBox MessageId.IDS_UNINSTALL_VERIFY
      ∉ (BrowserMain chromeEnvVars aliveWorld uninstallAndImport emptyEnv).trace ∧
    Event.call .RemoveSentinel
      ∉ (BrowserMain chromeEnvVars aliveWorld uninstallAndImport emptyEnv).trace :=
  have h := uninstall_alive chromeEnvVars aliveWorld uninstallAndImport emptyEnv
    (by decide) (by decide)
  ⟨(h.1 (by decide)).1, h.2.2.1, h.2.2.2.1⟩

/-! ## The icon gate -/

/-- Start-up shows no hide-icons box and starts no program. -/
theorem startup_no_icon_calls (w : World) (command_line : CommandLine) (e : Event)
    (he : e ∈ BrowserMain.startup w command_line
      ++ [Event.call .RegisterAllPrefs, Event.call .ReadLastShutdownInfo]) :
    (∀ file, e ≠ Event.ShellExecute file) ∧
    (∀ applet, e ≠ Event.MessageBox (MessageId.IDS_HIDE_ICONS_NOT_SUPPORTED applet)) := by
  have h0 := loaded_stage w command_line e he
  constructor
  · intro file hf
    subst hf
    simp [Event.stage] at h0
  · intro applet hf
    subst hf
    simp [Event.stage] at h0

/-- Claim C6.  With the hide-icons switch on an OS version before Windows XP
(major below 5, or 5.0) the icon gate returns UNSUPPORTED_PARAM after the
version query alone: no message box, no `ShellExecute`.  The launch that
reaches the gate returns that code and adds only the version query to what
start-up did. -/
theorem hide_icons_before_xp (ev : EnvVars) (w : World) (command_line : CommandLine) (env : Env)
    (major minor : Nat) (hh : command_line.HasSwitch Switch.kHideIcons = true)
    (hv : w.osVersion = some (major, minor)) (hold : major < 5 ∨ (major = 5 ∧ minor = 0)) :
    HandleIconsCommands w command_line
      = (ExitCode.UNSUPPORTED_PARAM, [Event.call .GetVersionEx]) ∧
    (w.profileLoads = true → command_line.HasSwitch Switch.kUninstall = false →
      (BrowserMain ev w command_line env).result
        = Outcome.returned ExitCode.UNSUPPORTED_PARAM ∧
      (BrowserMain ev w command_line env).trace
        = BrowserMain.startup w command_line
          ++ [Event.call .RegisterAllPrefs, Event.call .ReadLastShutdownInfo,
            Event.call .GetVersionEx] ∧
      (∀ file, Event.ShellExecute file ∉ (BrowserMain ev w command_line env).trace) ∧
      (∀ applet, Event.MessageBox (MessageId.IDS_HIDE_ICONS_NOT_SUPPORTED applet)
        ∉ (BrowserMain ev w command_line env).trace)) := by
  have h6 : ¬ (6 ≤ major) := by omega
  have h5 : ¬ (major = 5 ∧ 1 ≤ minor) := by omega
  have hi : HandleIconsCommands w command_line
      = (ExitCode.UNSUPPORTED_PARAM, [Event.call .GetVersionEx]) := by
    simp [HandleIconsCommands, hh, hv, h6, h5]
  refine ⟨hi, ?_⟩
  intro hp h1
  have h2 : (command_line.HasSwitch Switch.kHideIcons ||
      command_line.HasSwitch Switch.kShowIcons) = true := by simp [hh]
  rw [BrowserMain_of_icons ev w command_line env hp h1 h2]
  refine ⟨by simp [Gate.value, hi], by simp [hi], ?_, ?_⟩ <;> rw [hi]
  · intro file hm
    rcases List.mem_append.1 hm with h | h
    · exact (startup_no_icon_calls w command_line _ h).1 file rfl
    · simp at h
  · intro applet hm
    rcases List.mem_append.1 hm with h | h
    · exact (startup_no_icon_calls w command_line _ h).2 applet rfl
    · simp at h

/-- Claim C6 at the sample launch on Windows 2000. -/
theorem hide_icons_before_xp_witness :
    HandleIconsCommands win2000World hideIconsOnly
      = (ExitCode.UNSUPPORTED_PARAM, [Event.call .GetVersionEx]) ∧
    (BrowserMain chromeEnvVars win2000World hideIconsOnly emptyEnv).result
      = Outcome.returned ExitCode.UNSUPPORTED_PARAM ∧
    Event.ShellExecute "appwiz.cpl"
      ∉ (BrowserMain chromeEnvVars win2000World hideIconsOnly emptyEnv).trace :=
  have h := hide_icons_before_xp chromeEnvVars win2000World hideIconsOnly emptyEnv 5 0
    (by decide) rfl (Or.inr ⟨rfl, rfl⟩)
  have h2 := h.2 (by decide) (by decide)
  ⟨h.1, h2.1, h2.2.2.1 "appwiz.cpl"⟩

/-- Claim C7.  `HandleIconsCommands` returns NORMAL_EXIT exactly when the
hide-icons switch is present, the version query succeeds and the version is XP
or later, and UNSUPPORTED_PARAM otherwise (so with show-icons alone).  In the
supported case the prompt is shown and `appwiz.cpl` is started exactly when
the user confirms; otherwise neither happens. -/
theorem HandleIconsCommands_result (w : World) (command_line : CommandLine) :
    ((HandleIconsCommands w command_line).1 = ExitCode.NORMAL_EXIT
      ↔ hideIconsSupported w command_line = true) ∧
    (hideIconsSupported w command_line = false →
      (HandleIconsCommands w command_line).1 = ExitCode.UNSUPPORTED_PARAM ∧
      ∀ e ∈ (HandleIconsCommands w command_line).2, e = Event.call .GetVersionEx) ∧
    (hideIconsSupported w command_line = true →
      ((HandleIconsCommands w command_line).2.count (Event.ShellExecute "appwiz.cpl")
        = if w.hideIconsConfirmed then 1 else 0) ∧
      (Event.ShellExecute "appwiz.cpl" ∈ (HandleIconsCommands w command_line).2
        ↔ w.hideIconsConfirmed = true) ∧
      ∃ applet, Event.MessageBox (MessageId.IDS_HIDE_ICONS_NOT_SUPPORTED applet)
        ∈ (HandleIconsCommands w command_line).2) ∧
    (command_line.HasSwitch Switch.kHideIcons = false →
      HandleIconsCommands w command_line = (ExitCode.UNSUPPORTED_PARAM, [])) := by
  unfold hideIconsSupported
  cases hh : command_line.HasSwitch Switch.kHideIcons
  · simp [HandleIconsCommands, hh]
  · rcases hv : w.osVersion with _ | ⟨major, minor⟩
    · simp [HandleIconsCommands, hh, hv]
    · by_cases h6 : 6 ≤ major
      · cases hc : w.hideIconsConfirmed <;> simp [HandleIconsCommands, hh, hv, h6, hc]
      · by_cases h5 : major = 5 ∧ 1 ≤ minor
        · cases hc : w.hideIconsConfirmed <;>
            simp [HandleIconsCommands, hh, hv, h6, h5, hc, h5.1, h5.2]
        · have hn : ¬ (6 ≤ major ∨ major = 5 ∧ 1 ≤ minor) := by
            rintro (h | h)
            · exact h6 h
            · exact h5 h
          simp [HandleIconsCommands, hh, hv, h6, h5, hn]

/-- Claim C7 at the sample launch on Windows XP with the prompt confirmed, and
with the show-icons switch alone. -/
theorem HandleIconsCommands_result_witness :
    (HandleIconsCommands sampleWorld hideIconsOnly).1 = ExitCode.NORMAL_EXIT ∧
    Event.ShellExecute "appwiz.cpl" ∈ (HandleIconsCommands sampleWorld hideIconsOnly).2 ∧
    HandleIconsCommands sampleWorld showIconsOnly = (ExitCode.UNSUPPORTED_PARAM, []) :=
  have h := HandleIconsCommands_result sampleWorld hideIconsOnly
  ⟨h.1.2 (by decide), (h.2.2.1 (by decide)).2.1.2 (by decide),
    (HandleIconsCommands_result sampleWorld showIconsOnly).2.2.2 (by decide)⟩

/-! ## The hand-off -/

/-- Claim C8.  Without any of the uninstall, hide-icons, show-icons,
make-default-browser and import switches and with `NotifyOtherProcess`
succeeding, `BrowserMain` returns NORMAL_EXIT and goes no further than the
hand-off: no zombie hunt, no upgrade swap or relaunch, no `Create` of the
channel, no first-run dialog, no write to the environment. -/
theorem hand_off_ends_launch (ev : EnvVars) (w : World) (command_line : CommandLine) (env : Env)
    (h1 : command_line.HasSwitch Switch.kUninstall = false)
    (h2 : command_line.HasSwitch Switch.kHideIcons = false)
    (h3 : command_line.HasSwitch Switch.kShowIcons = false)
    (h4 : command_line.HasSwitch Switch.kMakeDefaultBrowser = false)
    (h5 : command_line.HasSwitch Switch.kImport = false)
    (h6 : w.notifyOtherProcess = true) :
    (BrowserMain ev w command_line env).result = Outcome.returned ExitCode.NORMAL_EXIT ∧
    (∀ e ∈ (BrowserMain ev w command_line env).trace, e.stage ≤ 5) ∧
    Event.call .HuntForZombieChromeProcesses ∉ (BrowserMain ev w command_line env).trace ∧
    Event.call .SwapNewChromeExeIfPresent ∉ (BrowserMain ev w command_line env).trace ∧
    Event.call .RelaunchChromeBrowser ∉ (BrowserMain ev w command_line env).trace ∧
    Event.call .MessageWindowCreate ∉ (BrowserMain ev w command_line env).trace ∧
    Event.call .OpenFirstRunDialog ∉ (BrowserMain ev w command_line env).trace ∧
    (∀ name value,
      Event.SetEnvironmentVariableW name value ∉ (BrowserMain ev w command_line env).trace) ∧
    (BrowserMain ev w command_line env).env = env ∧
    (w.profileLoads = true →
      (BrowserMain ev w command_line env).trace
        = BrowserMain.startup w command_line
          ++ [Event.call .RegisterAllPrefs, Event.call .ReadLastShutdownInfo,
            Event.call .NotifyOtherProcess]) := by
  have h23 : (command_line.HasSwitch Switch.kHideIcons ||
      command_line.HasSwitch Switch.kShowIcons) = false := by simp [h2, h3]
  have hst : ∀ e ∈ (BrowserMain ev w command_line env).trace, e.stage ≤ 5 := by
    cases hp : w.profileLoads
    · intro e he
      rw [BrowserMain_stage_of_no_profile ev w command_line env hp e he]
      decide
    · rw [BrowserMain_of_hand_off ev w command_line env hp h1 h23 h4 h5 h6]
      refine stage_le_append _ _ 0 5 5 (loaded_stage w command_line) ?_ (by decide) (by decide)
      intro e he
      simp only [List.mem_singleton] at he
      subst he; rfl
  refine ⟨?_, hst, fun hm => ?_, fun hm => ?_, fun hm => ?_, fun hm => ?_, fun hm => ?_,
    fun name value hm => ?_, ?_, ?_⟩
  · cases hp : w.profileLoads
    · rw [BrowserMain_of_no_profile ev w command_line env hp]
    · rw [BrowserMain_of_hand_off ev w command_line env hp h1 h23 h4 h5 h6]
      rfl
  · have := hst _ hm
    simp [Event.stage] at this
  · have := hst _ hm
    simp [Event.stage] at this
  · have := hst _ hm
    simp [Event.stage] at this
  · have := hst _ hm
    simp [Event.stage] at this
  · have := hst _ hm
    simp [Event.stage] at this
  · have := hst _ hm
    simp [Event.stage] at this
  · cases hp : w.profileLoads
    · rw [BrowserMain_of_no_profile ev w command_line env hp]
    · rw [BrowserMain_of_hand_off ev w command_line env hp h1 h23 h4 h5 h6]
  · intro hp
    rw [BrowserMain_of_hand_off ev w command_line env hp h1 h23 h4 h5 h6]
    simp

/-- Claim C8 at the sample launch with a running instance. -/
theorem hand_off_ends_launch_witness :
    (BrowserMain chromeEnvVars handOffWorld noSwitches emptyEnv).result
      = Outcome.returned ExitCode.NORMAL_EXIT ∧
    Event.call .HuntForZombieChromeProcesses
      ∉ (BrowserMain chromeEnvVars handOffWorld noSwitches emptyEnv).trace ∧
    Event.call .MessageWindowCreate
      ∉ (BrowserMain chromeEnvVars handOffWorld noSwitches emptyEnv).trace :=
  have h := hand_off_ends_launch chromeEnvVars handOffWorld noSwitches emptyEnv
    (by decide) (by decide) (by decide) (by decide) (by decide) (by decide)
  ⟨h.1, h.2.2.1, h.2.2.2.2.2.1⟩

/-! ## The recovery record -/

/-- The two ways `PrepareRestartOnCrashEnviroment` can go, when the headless
marker and the restart flag are different variables. -/
theorem PrepareRestartOnCrashEnviroment_eq (ev : EnvVars) (w : World)
    (command_line : CommandLine) (env : Env) (hne : ev.kHeadless ≠ ev.kShowRestart) :
    PrepareRestartOnCrashEnviroment ev w command_line env =
      if restartSuppressed ev command_line env then
        ([Event.SetEnvironmentVariableW ev.kShowRestart none,
            Event.GetEnvironmentVariableW ev.kHeadless],
          SetEnvironmentVariableW env ev.kShowRestart none)
      else
        ([Event.SetEnvironmentVariableW ev.kShowRestart none,
            Event.GetEnvironmentVariableW ev.kHeadless,
            Event.SetEnvironmentVariableW ev.kRestartInfo (some (recoveryRecord ev w))],
          SetEnvironmentVariableW (SetEnvironmentVariableW env ev.kShowRestart none)
            ev.kRestartInfo (some (recoveryRecord ev w))) := by
  have hrec : (if w.textDirectionIsRtl then
        "" ++ w.crashRecoveryTitle ++ "|" ++ w.crashRecoveryContent ++ "|" ++ ev.kRtlLocale
      else "" ++ w.crashRecoveryTitle ++ "|" ++ w.crashRecoveryContent ++ "|" ++ ev.kLtrLocale)
      = recoveryRecord ev w := by
    unfold recoveryRecord
    cases w.textDirectionIsRtl <;> simp [String.empty_append]
  unfold PrepareRestartOnCrashEnviroment
  simp only [hrec]
  unfold restartSuppressed GetEnvironmentVariableW SetEnvironmentVariableW
  simp only [hne, if_false]
  cases hh : env ev.kHeadless
  · cases command_line.HasSwitch Switch.kBrowserCrashTest <;>
      cases command_line.HasSwitch Switch.kBrowserAssertTest <;>
      cases command_line.HasSwitch Switch.kNoErrorDialogs <;> simp
  · simp

/-- Claim C9.  With the headless marker and the restart flag being different
variables, `PrepareRestartOnCrashEnviroment` writes the recovery record exactly
when none of the crash-test, assertion-test and no-error-dialogs switches and
the headless marker is present; what it writes to `kRestartInfo` is title,
body and direction marker joined by `|`, the marker being `kRtlLocale` exactly
when the text direction is right-to-left and `kLtrLocale` otherwise. -/
theorem PrepareRestartOnCrashEnviroment_writes (ev : EnvVars) (w : World)
    (command_line : CommandLine) (env : Env) (hne : ev.kHeadless ≠ ev.kShowRestart) :
    ((∃ value, Event.SetEnvironmentVariableW ev.kRestartInfo (some value)
        ∈ (PrepareRestartOnCrashEnviroment ev w command_line env).1)
      ↔ restartSuppressed ev command_line env = false) ∧
    (restartSuppressed ev command_line env = false →
      (PrepareRestartOnCrashEnviroment ev w command_line env).1
        = [Event.SetEnvironmentVariableW ev.kShowRestart none,
            Event.GetEnvironmentVariableW ev.kHeadless,
            Event.SetEnvironmentVariableW ev.kRestartInfo (some (recoveryRecord ev w))] ∧
      (PrepareRestartOnCrashEnviroment ev w command_line env).2 ev.kRestartInfo
        = some (recoveryRecord ev w)) ∧
    (restartSuppressed ev command_line env = true →
      (PrepareRestartOnCrashEnviroment ev w command_line env).1
        = [Event.SetEnvironmentVariableW ev.kShowRestart none,
            Event.GetEnvironmentVariableW ev.kHeadless] ∧
      (PrepareRestartOnCrashEnviroment ev w command_line env).2
        = SetEnvironmentVariableW env ev.kShowRestart none) ∧
    (w.textDirectionIsRtl = true → recoveryRecord ev w
      = w.crashRecoveryTitle ++ "|" ++ w.crashRecoveryContent ++ "|" ++ ev.kRtlLocale) ∧
    (w.textDirectionIsRtl = false → recoveryRecord ev w
      = w.crashRecoveryTitle ++ "|" ++ w.crashRecoveryContent ++ "|" ++ ev.kLtrLocale) := by
  rw [PrepareRestartOnCrashEnviroment_eq ev w command_line env hne]
  refine ⟨?_, ?_, ?_, ?_, ?_⟩
  · cases hs : restartSuppressed ev command_line env
    · simp
    · simp
  · intro hs
    simp [hs, SetEnvironmentVariableW]
  · intro hs
    simp [hs]
  · intro hd
    simp [recoveryRecord, hd]
  · intro hd
    simp [recoveryRecord, hd]

/-- Claim C9 at the sample launch, left-to-right and right-to-left, and with
the no-error-dialogs switch. -/
theorem PrepareRestartOnCrashEnviroment_writes_witness :
    (PrepareRestartOnCrashEnviroment chromeEnvVars sampleWorld noSwitches emptyEnv).2
        "CHROME_RESTART" = some "Title|Body|LEFT_TO_RIGHT" ∧
    recoveryRecord chromeEnvVars rtlWorld = "Title|Body|RIGHT_TO_LEFT" ∧
    (PrepareRestartOnCrashEnviroment chromeEnvVars sampleWorld noErrorDialogsOnly emptyEnv).1
      = [Event.SetEnvironmentVariableW "CHROME_CRASHED" none,
          Event.GetEnvironmentVariableW "CHROME_HEADLESS"] :=
  have h := PrepareRestartOnCrashEnviroment_writes chromeEnvVars sampleWorld noSwitches emptyEnv
    (by decide)
  have hr := PrepareRestartOnCrashEnviroment_writes chromeEnvVars rtlWorld noSwitches emptyEnv
    (by decide)
  have hn := PrepareRestartOnCrashEnviroment_writes chromeEnvVars sampleWorld noErrorDialogsOnly
    emptyEnv (by decide)
  ⟨(h.2.1 (by decide)).2.trans (by decide), (hr.2.2.2.1 (by decide)).trans (by decide),
    (hn.2.2.1 (by decide)).1⟩

/-- Claim C10 as stated fails.  A launch that ends at the uninstall gate makes
no environment call at all and returns with the record and the restart flag
of the earlier launch still set; a launch that reaches the last steps with the
no-error-dialogs switch clears the restart flag and still leaves the record. -/
theorem recovery_record_leak_counterexample :
    leftoverEnv "CHROME_RESTART" = some "Title|Body|LEFT_TO_RIGHT" ∧
    (BrowserMain chromeEnvVars aliveWorld uninstallOnly leftoverEnv).result
      = Outcome.returned ExitCode.UNINSTALL_CHROME_ALIVE ∧
    (BrowserMain chromeEnvVars aliveWorld uninstallOnly leftoverEnv).env "CHROME_RESTART"
      = some "Title|Body|LEFT_TO_RIGHT" ∧
    (BrowserMain chromeEnvVars aliveWorld uninstallOnly leftoverEnv).env "CHROME_CRASHED"
      = some "1" ∧
    (BrowserMain chromeEnvVars sampleWorld noErrorDialogsOnly leftoverEnv).result
      = Outcome.returned ExitCode.NORMAL_EXIT ∧
    (BrowserMain chromeEnvVars sampleWorld noErrorDialogsOnly leftoverEnv).env "CHROME_RESTART"
      = some "Title|Body|LEFT_TO_RIGHT" ∧
    (BrowserMain chromeEnvVars sampleWorld noErrorDialogsOnly leftoverEnv).env "CHROME_CRASHED"
      = none := by
  decide

/-- Claim C10, as amended.  `BrowserMain` touches the environment only in
`PrepareRestartOnCrashEnviroment`, after all gates.  A launch that ends at the
profile-failure exit or at a gate makes no environment call and returns with
the block it was given.  A launch that passes the gates with a suppressing
switch or the headless marker returns with `kShowRestart` deleted and every
other variable as it was; without them it returns with the fresh record in
`kRestartInfo`. -/
theorem recovery_record_cleared_late (ev : EnvVars) (w : World) (command_line : CommandLine)
    (env : Env) (hne : ev.kHeadless ≠ ev.kShowRestart) :
    ((w.profileLoads = false ∨ (firstGate w command_line).isSome = true) →
      (BrowserMain ev w command_line env).env = env ∧
      ∀ name value,
        Event.SetEnvironmentVariableW name value ∉ (BrowserMain ev w command_line env).trace) ∧
    (w.profileLoads = true → firstGate w command_line = none →
      (restartSuppressed ev command_line env = true →
        (BrowserMain ev w command_line env).env
          = SetEnvironmentVariableW env ev.kShowRestart none ∧
        (BrowserMain ev w command_line env).env ev.kShowRestart = none ∧
        ∀ name, name ≠ ev.kShowRestart →
          (BrowserMain ev w command_line env).env name = env name) ∧
      (restartSuppressed ev command_line env = false →
        (BrowserMain ev w command_line env).env ev.kRestartInfo
          = some (recoveryRecord ev w))) := by
  constructor
  · intro h
    cases hp : w.profileLoads
    · refine ⟨by rw [BrowserMain_of_no_profile ev w command_line env hp], ?_⟩
      intro name value hm
      have := BrowserMain_stage_of_no_profile ev w command_line env hp _ hm
      simp [Event.stage] at this
    · rcases h with h | h
      · rw [hp] at h; cases h
      · obtain ⟨g, hg⟩ := Option.isSome_iff_exists.1 h
        obtain ⟨_, hst, henv⟩ := BrowserMain_at_first_gate ev w command_line env hp g hg
        refine ⟨henv, ?_⟩
        intro name value hm
        have h7 := hst _ hm
        have h6 : g.rank ≤ 6 := by cases g <;> decide
        simp only [Event.stage] at h7
        omega
  · intro hp hg
    simp only [firstGate, Gate.order, List.find?_eq_none, List.mem_cons, List.mem_singleton,
      List.not_mem_nil, or_false, forall_eq_or_imp, forall_eq, Gate.condition,
      Bool.not_eq_true] at hg
    obtain ⟨h1, h2, h3, h4, h5, h6⟩ := hg
    rw [BrowserMain_of_fall_through ev w command_line env hp h1 h2 h3 h4 h5 h6, run_env,
      PrepareRestartOnCrashEnviroment_eq ev w command_line env hne]
    constructor
    · intro hs
      rw [hs]
      refine ⟨rfl, by simp [SetEnvironmentVariableW], ?_⟩
      intro name hn
      simp [SetEnvironmentVariableW, hn]
    · intro hs
      simp [hs, SetEnvironmentVariableW]

/-- Claim C10, as amended, at a launch that ends at the uninstall gate and at
one that passes the gates with the no-error-dialogs switch. -/
theorem recovery_record_cleared_late_witness :
    (BrowserMain chromeEnvVars aliveWorld uninstallOnly leftoverEnv).env = leftoverEnv ∧
    (BrowserMain chromeEnvVars sampleWorld noErrorDialogsOnly leftoverEnv).env
      = SetEnvironmentVariableW leftoverEnv "CHROME_CRASHED" none :=
  have h := recovery_record_cleared_late chromeEnvVars aliveWorld uninstallOnly leftoverEnv
    (by decide)
  have hn := recovery_record_cleared_late chromeEnvVars sampleWorld noErrorDialogsOnly
    leftoverEnv (by decide)
  ⟨(h.1 (Or.inr (by decide))).1, ((hn.2 (by decide) (by decide)).1 (by decide)).1⟩

/-! ## After the gates -/

/-- The last segment adds calls of normal operation only. -/
theorem run_trace_normal_operation (w : World) (command_line : CommandLine) (t : List Event)
    (env : Env) :
    ∃ rest, (BrowserMain.run w command_line t env).trace = t ++ rest ∧
      ∀ e ∈ rest, e.isNormalOperation = true := by
  unfold BrowserMain.run
  cases HandleErrorTestParameters w command_line <;>
    simp only [List.append_assoc] <;> refine ⟨_, rfl, ?_⟩ <;> intro e he <;>
    simp only [List.mem_append, List.mem_cons, List.mem_singleton, List.not_mem_nil,
      or_false, false_or, List.mem_ite_nil_right, List.mem_ite_nil_left] at he
  all_goals
    casesm* _ ∨ _, _ ∧ _ <;> subst_vars <;> rfl

/-- A call of normal operation is no channel call and follows the gates. -/
theorem isNormalOperation_spec (e : Event) (h : e.isNormalOperation = true) :
    e.isChannelCall = false ∧ e.stage = 7 := by
  cases e with
  | call c => cases c <;> first | (constructor <;> rfl) | cases h
  | _ => first | (constructor <;> rfl) | cases h

/-- A call made at or before the gates is no channel call. -/
theorem not_channel_of_stage (e : Event) (h : e.stage < 7) : e.isChannelCall = false := by
  cases e with
  | call c => cases c <;> first | rfl | (exact absurd h (by decide))
  | _ => rfl

/-- Only channel calls change the channel state. -/
theorem step_of_not_channel (s : ChannelState) (e : Event) (h : e.isChannelCall = false) :
    s.step e = s := by
  cases e with
  | call c => cases c <;> first | rfl | cases h
  | _ => rfl

/-- The calls of `PrepareRestartOnCrashEnviroment` are environment calls: they
follow the gates and are no channel calls. -/
theorem PrepareRestartOnCrashEnviroment_calls (ev : EnvVars) (w : World)
    (command_line : CommandLine) (env : Env) :
    ∀ e ∈ (PrepareRestartOnCrashEnviroment ev w command_line env).1,
      e.isChannelCall = false ∧ e.stage = 7 ∧ e.isNormalOperation = false := by
  intro e he
  unfold PrepareRestartOnCrashEnviroment at he
  by_cases hh : GetEnvironmentVariableW (SetEnvironmentVariableW env ev.kShowRestart none)
      ev.kHeadless = 0 <;>
    by_cases hs : (command_line.HasSwitch Switch.kBrowserCrashTest ||
      command_line.HasSwitch Switch.kBrowserAssertTest ||
      command_line.HasSwitch Switch.kNoErrorDialogs) = true <;>
    simp only [hh, hs, ne_eq, not_true_eq_false, not_false_eq_true, if_true, if_false,
      List.mem_append, List.mem_cons, List.mem_singleton, List.not_mem_nil, or_false] at he <;>
    first
    | (casesm* _ ∨ _ <;> subst_vars <;> exact ⟨rfl, rfl, rfl⟩)
    | (cases w.textDirectionIsRtl <;> simp at he <;> casesm* _ ∨ _ <;> subst_vars <;>
        exact ⟨rfl, rfl, rfl⟩)

/-- The calls of a launch up to the upgrade check precede the later steps. -/
theorem passedGatesTrace_stage (w : World) (command_line : CommandLine) :
    ∀ e ∈ passedGatesTrace w command_line,
      e.stage < 7 ∧ e ≠ Event.call .RelaunchChromeBrowser := by
  intro e he
  unfold passedGatesTrace at he
  rcases List.mem_append.1 he with h | h
  · rcases List.mem_append.1 h with h | h
    · have h0 := loaded_stage w command_line e h
      refine ⟨by omega, ?_⟩
      intro hr
      subst hr
      simp [Event.stage] at h0
    · simp only [List.mem_cons, List.mem_singleton, List.not_mem_nil, or_false] at h
      rcases h with h | h <;> subst h <;> exact ⟨by decide, by decide⟩
  · simp only [List.mem_singleton] at h
    subst h
    exact ⟨by decide, by decide⟩

/-- The calls around the first-run UI are channel calls. -/
theorem firstRunTrace_calls (w : World) (command_line : CommandLine) :
    ∀ e ∈ firstRunTrace w command_line, e.isChannelCall = true := by
  intro e he
  unfold firstRunTrace at he
  split_ifs at he
  · simp only [List.mem_cons, List.mem_singleton, List.not_mem_nil, or_false] at he
    rcases he with h | h | h <;> subst h <;> rfl
  · cases he

/-- The shape of the trace of a launch that passes every gate. -/
theorem BrowserMain_trace_of_fall_through (ev : EnvVars) (w : World)
    (command_line : CommandLine) (env : Env) (hp : w.profileLoads = true)
    (hg : firstGate w command_line = none) :
    ∃ rest, (BrowserMain ev w command_line env).trace
        = passedGatesTrace w command_line ++ [Event.call .MessageWindowCreate]
          ++ firstRunTrace w command_line
          ++ (PrepareRestartOnCrashEnviroment ev w command_line env).1 ++ rest ∧
      ∀ e ∈ rest, e.isNormalOperation = true := by
  simp only [firstGate, Gate.order, List.find?_eq_none, List.mem_cons, List.mem_singleton,
    List.not_mem_nil, or_false, forall_eq_or_imp, forall_eq, Gate.condition,
    Bool.not_eq_true] at hg
  obtain ⟨h1, h2, h3, h4, h5, h6⟩ := hg
  rw [BrowserMain_of_fall_through ev w command_line env hp h1 h2 h3 h4 h5 h6]
  exact run_trace_normal_operation w command_line _ _

/-! ## The upgrade gate -/

/-- Claim C11 as stated fails where `NOTREACHED()` is compiled out: with the
swap done and the relaunch failing, `DoUpgradeTasks` goes on to `return true`
and `BrowserMain` returns NORMAL_EXIT, an ordinary exit code, exactly as after
a relaunch that worked. -/
theorem upgrade_relaunch_failure_counterexample :
    relaunchFailsWorld.swapNewChromeExeIfPresent = true ∧
    relaunchFailsWorld.relaunchChromeBrowser = false ∧
    DoUpgradeTasks relaunchFailsWorld =
      (Outcome.returned true,
        [Event.call .SwapNewChromeExeIfPresent, Event.call .RelaunchChromeBrowser]) ∧
    (BrowserMain chromeEnvVars relaunchFailsWorld noSwitches emptyEnv).result
      = Outcome.returned ExitCode.NORMAL_EXIT ∧
    (BrowserMain chromeEnvVars relaunchFailsWorld noSwitches emptyEnv).result
      = (BrowserMain chromeEnvVars upgradeWorld noSwitches emptyEnv).result := by
  decide

/-- Claim C11, as amended.  On a launch that reaches the upgrade gate: without
a swap `DoUpgradeTasks` returns false after the swap attempt alone and
`BrowserMain` goes on to create the channel and to the later steps; with swap
and relaunch both succeeding `BrowserMain` returns NORMAL_EXIT; with the swap
done and the relaunch failing, a build with assertions dies at `NOTREACHED()`
without an exit code, and a build without them returns NORMAL_EXIT. -/
theorem upgrade_gate_outcomes (ev : EnvVars) (w : World) (command_line : CommandLine)
    (env : Env) (hp : w.profileLoads = true)
    (h1 : command_line.HasSwitch Switch.kUninstall = false)
    (h2 : command_line.HasSwitch Switch.kHideIcons = false)
    (h3 : command_line.HasSwitch Switch.kShowIcons = false)
    (h4 : command_line.HasSwitch Switch.kMakeDefaultBrowser = false)
    (h5 : command_line.HasSwitch Switch.kImport = false)
    (h6 : w.notifyOtherProcess = false) :
    (w.swapNewChromeExeIfPresent = false →
      DoUpgradeTasks w = (Outcome.returned false, [Event.call .SwapNewChromeExeIfPresent]) ∧
      Event.call .RelaunchChromeBrowser ∉ (BrowserMain ev w command_line env).trace ∧
      Event.call .MessageWindowCreate ∈ (BrowserMain ev w command_line env).trace ∧
      BrowserMain ev w command_line env =
        BrowserMain.run w command_line
          (BrowserMain.startup w command_line
            ++ [Event.call .RegisterAllPrefs, Event.call .ReadLastShutdownInfo]
            ++ [Event.call .NotifyOtherProcess, Event.call .HuntForZombieChromeProcesses]
            ++ [Event.call .SwapNewChromeExeIfPresent]
            ++ [Event.call .MessageWindowCreate]
            ++ (if is_first_run w command_line then
                  [Event.call .MessageWindowLock, Event.call .OpenFirstRunDialog,
                    Event.call .MessageWindowUnlock]
                else [])
            ++ (PrepareRestartOnCrashEnviroment ev w command_line env).1)
          (PrepareRestartOnCrashEnviroment ev w command_line env).2) ∧
    (w.swapNewChromeExeIfPresent = true → w.relaunchChromeBrowser = true →
      DoUpgradeTasks w =
        (Outcome.returned true,
          [Event.call .SwapNewChromeExeIfPresent, Event.call .RelaunchChromeBrowser]) ∧
      (BrowserMain ev w command_line env).result = Outcome.returned ExitCode.NORMAL_EXIT ∧
      Event.call .MessageWindowCreate ∉ (BrowserMain ev w command_line env).trace) ∧
    (w.swapNewChromeExeIfPresent = true → w.relaunchChromeBrowser = false →
      w.debugBuild = true →
      DoUpgradeTasks w =
        (Outcome.dcheckFailed,
          [Event.call .SwapNewChromeExeIfPresent, Event.call .RelaunchChromeBrowser]) ∧
      (BrowserMain ev w command_line env).result = Outcome.dcheckFailed ∧
      Event.call .MessageWindowCreate ∉ (BrowserMain ev w command_line env).trace) ∧
    (w.swapNewChromeExeIfPresent = true → w.relaunchChromeBrowser = false →
      w.debugBuild = false →
      DoUpgradeTasks w =
        (Outcome.returned true,
          [Event.call .SwapNewChromeExeIfPresent, Event.call .RelaunchChromeBrowser]) ∧
      (BrowserMain ev w command_line env).result = Outcome.returned ExitCode.NORMAL_EXIT) := by
  have h23 : (command_line.HasSwitch Switch.kHideIcons ||
      command_line.HasSwitch Switch.kShowIcons) = false := by simp [h2, h3]
  have hgate : w.swapNewChromeExeIfPresent = true →
      Event.call .MessageWindowCreate ∉ (BrowserMain ev w command_line env).trace := by
    intro hs hm
    have hg : firstGate w command_line = some Gate.upgradeRelaunch := by
      simp [firstGate, Gate.order, Gate.condition, h1, h23, h4, h5, h6, hs]
    have := (BrowserMain_at_first_gate ev w command_line env hp _ hg).2.1 _ hm
    simp [Event.stage, Gate.rank] at this
  refine ⟨?_, ?_, ?_, ?_⟩
  · intro hs
    have hd : DoUpgradeTasks w
        = (Outcome.returned false, [Event.call .SwapNewChromeExeIfPresent]) := by
      simp [DoUpgradeTasks, hs]
    have hf := BrowserMain_of_fall_through ev w command_line env hp h1 h23 h4 h5 h6 hs
    refine ⟨hd, ?_, ?_, hf⟩
    · have hg : firstGate w command_line = none := by
        simp [firstGate, Gate.order, Gate.condition, h1, h23, h4, h5, h6, hs]
      obtain ⟨rest, hr, hrest⟩ := BrowserMain_trace_of_fall_through ev w command_line env hp hg
      rw [hr]
      simp only [List.mem_append, List.mem_singleton, not_or]
      refine ⟨⟨⟨⟨fun hm => (passedGatesTrace_stage w command_line _ hm).2 rfl, by decide⟩,
        fun hm => ?_⟩, fun hm => ?_⟩, fun hm => ?_⟩
      · have := firstRunTrace_calls w command_line _ hm
        simp [Event.isChannelCall] at this
      · have := (PrepareRestartOnCrashEnviroment_calls ev w command_line env _ hm).2.1
        simp [Event.stage] at this
      · have := hrest _ hm
        simp [Event.isNormalOperation] at this
    · obtain ⟨rest, hr⟩ := run_trace_extends w command_line
        (BrowserMain.startup w command_line
          ++ [Event.call .RegisterAllPrefs, Event.call .ReadLastShutdownInfo]
          ++ [Event.call .NotifyOtherProcess, Event.call .HuntForZombieChromeProcesses]
          ++ [Event.call .SwapNewChromeExeIfPresent]
          ++ [Event.call .MessageWindowCreate]
          ++ (if is_first_run w command_line then
                [Event.call .MessageWindowLock, Event.call .OpenFirstRunDialog,
                  Event.call .MessageWindowUnlock]
              else [])
          ++ (PrepareRestartOnCrashEnviroment ev w command_line env).1)
        (PrepareRestartOnCrashEnviroment ev w command_line env).2
      rw [hf, hr]
      simp
  · intro hs hr
    have hd : DoUpgradeTasks w = (Outcome.returned true,
        [Event.call .SwapNewChromeExeIfPresent, Event.call .RelaunchChromeBrowser]) := by
      simp [DoUpgradeTasks, hs, hr]
    refine ⟨hd, ?_, hgate hs⟩
    rw [BrowserMain_of_upgrade ev w command_line env hp h1 h23 h4 h5 h6 hs]
    simp [Gate.value, hd]
  · intro hs hr hdb
    have hd : DoUpgradeTasks w = (Outcome.dcheckFailed,
        [Event.call .SwapNewChromeExeIfPresent, Event.call .RelaunchChromeBrowser]) := by
      simp [DoUpgradeTasks, hs, hr, hdb]
    refine ⟨hd, ?_, hgate hs⟩
    rw [BrowserMain_of_upgrade ev w command_line env hp h1 h23 h4 h5 h6 hs]
    simp [Gate.value, hd]
  · intro hs hr hdb
    have hd : DoUpgradeTasks w = (Outcome.returned true,
        [Event.call .SwapNewChromeExeIfPresent, Event.call .RelaunchChromeBrowser]) := by
      simp [DoUpgradeTasks, hs, hr, hdb]
    refine ⟨hd, ?_⟩
    rw [BrowserMain_of_upgrade ev w command_line env hp h1 h23 h4 h5 h6 hs]
    simp [Gate.value, hd]

/-- Claim C11, as amended, at the sample launch without a staged executable,
with a relaunch that works, and with a relaunch that fails in a build with
and in a build without assertions. -/
theorem upgrade_gate_outcomes_witness :
    DoUpgradeTasks sampleWorld
      = (Outcome.returned false, [Event.call .SwapNewChromeExeIfPresent]) ∧
    Event.call .MessageWindowCreate
      ∈ (BrowserMain chromeEnvVars sampleWorld noSwitches emptyEnv).trace ∧
    (BrowserMain chromeEnvVars upgradeWorld noSwitches emptyEnv).result
      = Outcome.returned ExitCode.NORMAL_EXIT ∧
    (BrowserMain chromeEnvVars relaunchFailsDebugWorld noSwitches emptyEnv).result
      = Outcome.dcheckFailed ∧
    (BrowserMain chromeEnvVars relaunchFailsWorld noSwitches emptyEnv).result
      = Outcome.returned ExitCode.NORMAL_EXIT :=
  have h0 := (upgrade_gate_outcomes chromeEnvVars sampleWorld noSwitches emptyEnv
    (by decide) (by decide) (by decide) (by decide) (by decide) (by decide) (by decide)).1
    (by decide)
  have h1 := (upgrade_gate_outcomes chromeEnvVars upgradeWorld noSwitches emptyEnv
    (by decide) (by decide) (by decide) (by decide) (by decide) (by decide) (by decide)).2.1
    (by decide) (by decide)
  have h2 := (upgrade_gate_outcomes chromeEnvVars relaunchFailsDebugWorld noSwitches emptyEnv
    (by decide) (by decide) (by decide) (by decide) (by decide) (by decide) (by decide)).2.2.1
    (by decide) (by decide) (by decide)
  have h3 := (upgrade_gate_outcomes chromeEnvVars relaunchFailsWorld noSwitches emptyEnv
    (by decide) (by decide) (by decide) (by decide) (by decide) (by decide) (by decide)).2.2.2
    (by decide) (by decide) (by decide)
  ⟨h0.1, h0.2.2.1, h1.2.1, h2.2.1, h3.2⟩

/-! ## The first run and the channel lock -/

/-- Calls that leave the channel alone are all made in the same channel state. -/
theorem channelStates_quiet (s : ChannelState) (l : List Event)
    (h : ∀ e ∈ l, e.isChannelCall = false) :
    channelStates s l = l.map (fun e => (s, e)) := by
  induction l with
  | nil => rfl
  | cons a l ih =>
    have ha : s.step a = s := step_of_not_channel s a (h a (List.mem_cons_self a l))
    simp only [channelStates, List.map_cons, ha]
    rw [ih (fun e he => h e (List.mem_cons_of_mem a he))]

/-- Calls that leave the channel alone leave its state as it was. -/
theorem channelAfter_quiet (s : ChannelState) (l : List Event)
    (h : ∀ e ∈ l, e.isChannelCall = false) : channelAfter s l = s := by
  induction l with
  | nil => rfl
  | cons a l ih =>
    have ha : s.step a = s := step_of_not_channel s a (h a (List.mem_cons_self a l))
    simp only [channelAfter, List.foldl_cons, ha]
    exact ih (fun e he => h e (List.mem_cons_of_mem a he))

/-- The channel states of two segments run one after the other. -/
theorem channelStates_append (s : ChannelState) (l₁ l₂ : List Event) :
    channelStates s (l₁ ++ l₂)
      = channelStates s l₁ ++ channelStates (channelAfter s l₁) l₂ := by
  induction l₁ generalizing s with
  | nil => rfl
  | cons a l ih =>
    show (s, a) :: channelStates (s.step a) (l ++ l₂)
      = (s, a) :: (channelStates (s.step a) l ++ channelStates (channelAfter (s.step a) l) l₂)
    rw [ih]

/-- The channel state after two segments run one after the other. -/
theorem channelAfter_append (s : ChannelState) (l₁ l₂ : List Event) :
    channelAfter s (l₁ ++ l₂) = channelAfter (channelAfter s l₁) l₂ := by
  simp [channelAfter, List.foldl_append]

/-- The channel state at every call of a trace of the shape: quiet calls, the
`Create`, a segment `F`, quiet calls. -/
theorem channelStates_around_create (P F T : List Event)
    (hP : ∀ e ∈ P, e.isChannelCall = false) (hT : ∀ e ∈ T, e.isChannelCall = false) :
    channelStates ChannelState.initial (P ++ [Event.call .MessageWindowCreate] ++ F ++ T)
      = P.map (fun e => (ChannelState.initial, e))
        ++ [(ChannelState.initial, Event.call .MessageWindowCreate)]
        ++ channelStates { created := true, locked := false } F
        ++ T.map (fun e => (channelAfter { created := true, locked := false } F, e)) := by
  have h1 : channelAfter ChannelState.initial (P ++ [Event.call .MessageWindowCreate])
      = { created := true, locked := false } := by
    rw [channelAfter_append, channelAfter_quiet _ P hP]
    rfl
  have h2 : channelAfter ChannelState.initial (P ++ [Event.call .MessageWindowCreate] ++ F)
      = channelAfter { created := true, locked := false } F := by
    rw [channelAfter_append, h1]
  rw [channelStates_append, channelStates_append, channelStates_append,
    channelStates_quiet _ P hP, channelStates_quiet _ T hT, h2,
    channelAfter_append, channelAfter_quiet _ P hP]
  rfl

/-- The calls around the first-run UI, with the channel created and unlocked
before them: each is a channel call, the UI is opened with the channel locked,
and the channel is unlocked again afterwards. -/
theorem firstRunTrace_states (w : World) (command_line : CommandLine) :
    (∀ p ∈ channelStates { created := true, locked := false } (firstRunTrace w command_line),
      p.2.isChannelCall = true ∧
      (p.2 = Event.call .OpenFirstRunDialog → p.1 = { created := true, locked := true })) ∧
    channelAfter { created := true, locked := false } (firstRunTrace w command_line)
      = { created := true, locked := false } ∧
    (Event.call .OpenFirstRunDialog ∈ firstRunTrace w command_line
      ↔ is_first_run w command_line = true) := by
  unfold firstRunTrace
  cases is_first_run w command_line
  · refine ⟨fun p hp => ?_, rfl, by simp⟩
    cases hp
  · refine ⟨fun p hp => ?_, rfl, by simp⟩
    simp only [if_true, channelStates, ChannelState.step, List.mem_cons, List.mem_singleton,
      List.not_mem_nil, or_false] at hp
    rcases hp with h | h | h <;> subst h
    · exact ⟨rfl, fun h => by cases h⟩
    · exact ⟨rfl, fun _ => rfl⟩
    · exact ⟨rfl, fun h => by cases h⟩

/-- Claim C12.  On a launch that passes every gate, the first-run UI is opened
exactly when this is the first run or the first-run switch is present; it is
opened with the channel created and locked, directly after `Lock` and directly
before `Unlock`, and only once; every call of
`PrepareRestartOnCrashEnviroment` and of normal operation is made with the
channel created and unlocked, first run or not, and the channel ends the
launch unlocked. -/
theorem first_run_ui_under_lock (ev : EnvVars) (w : World) (command_line : CommandLine)
    (env : Env) (hp : w.profileLoads = true) (hg : firstGate w command_line = none) :
    (Event.call .OpenFirstRunDialog ∈ (BrowserMain ev w command_line env).trace
      ↔ (w.isChromeFirstRun = true ∨ command_line.HasSwitch Switch.kFirstRun = true)) ∧
    (∀ p ∈ channelStates ChannelState.initial (BrowserMain ev w command_line env).trace,
      p.2 = Event.call .OpenFirstRunDialog → p.1 = { created := true, locked := true }) ∧
    ((w.isChromeFirstRun = true ∨ command_line.HasSwitch Switch.kFirstRun = true) →
      [Event.call .MessageWindowCreate, Event.call .MessageWindowLock,
          Event.call .OpenFirstRunDialog, Event.call .MessageWindowUnlock]
        <:+: (BrowserMain ev w command_line env).trace ∧
      (BrowserMain ev w command_line env).trace.count (Event.call .OpenFirstRunDialog) = 1) ∧
    (∀ p ∈ channelStates ChannelState.initial (BrowserMain ev w command_line env).trace,
      (p.2 ∈ (PrepareRestartOnCrashEnviroment ev w command_line env).1 ∨
        p.2.isNormalOperation = true) →
      p.1 = { created := true, locked := false }) ∧
    (∀ e ∈ (PrepareRestartOnCrashEnviroment ev w command_line env).1,
      e ∈ (BrowserMain ev w command_line env).trace) ∧
    channelAfter ChannelState.initial (BrowserMain ev w command_line env).trace
      = { created := true, locked := false } := by
  obtain ⟨rest, hr, hrest⟩ := BrowserMain_trace_of_fall_through ev w command_line env hp hg
  have hP : ∀ e ∈ passedGatesTrace w command_line, e.isChannelCall = false :=
    fun e he => not_channel_of_stage e (passedGatesTrace_stage w command_line e he).1
  have hPs : ∀ e ∈ passedGatesTrace w command_line, e.stage < 7 :=
    fun e he => (passedGatesTrace_stage w command_line e he).1
  have hQ := PrepareRestartOnCrashEnviroment_calls ev w command_line env
  have hT : ∀ e ∈ (PrepareRestartOnCrashEnviroment ev w command_line env).1 ++ rest,
      e.isChannelCall = false ∧ e.stage = 7 := by
    intro e he
    rcases List.mem_append.1 he with h | h
    · exact ⟨(hQ e h).1, (hQ e h).2.1⟩
    · exact isNormalOperation_spec e (hrest e h)
  have hfr : (w.isChromeFirstRun = true ∨ command_line.HasSwitch Switch.kFirstRun = true)
      ↔ is_first_run w command_line = true := by
    simp [is_first_run]
  have hshape : (BrowserMain ev w command_line env).trace
      = passedGatesTrace w command_line ++ [Event.call .MessageWindowCreate]
        ++ firstRunTrace w command_line
        ++ ((PrepareRestartOnCrashEnviroment ev w command_line env).1 ++ rest) := by
    rw [hr]; simp only [List.append_assoc]
  have hstates := channelStates_around_create (passedGatesTrace w command_line)
    (firstRunTrace w command_line)
    ((PrepareRestartOnCrashEnviroment ev w command_line env).1 ++ rest) hP
    (fun e he => (hT e he).1)
  obtain ⟨hFs, hFa, hFo⟩ := firstRunTrace_states w command_line
  rw [hfr, hshape, hstates]
  refine ⟨?_, ?_, ?_, ?_, ?_, ?_⟩
  · simp only [List.mem_append, List.mem_singleton]
    constructor
    · rintro (((h | h) | h) | h)
      · have := hP _ h
        simp [Event.isChannelCall] at this
      · cases h
      · exact hFo.1 h
      · have := (hT _ (List.mem_append.2 h)).1
        simp [Event.isChannelCall] at this
    · intro h
      exact Or.inl (Or.inr (hFo.2 h))
  · intro p hp ho
    simp only [List.mem_append, List.mem_singleton, List.mem_map] at hp
    rcases hp with ((⟨e, he, rfl⟩ | h) | h) | ⟨e, he, rfl⟩
    · have := hP e he
      simp only at ho
      rw [ho] at this
      simp [Event.isChannelCall] at this
    · subst h
      cases ho
    · exact (hFs p h).2 ho
    · have := (hT e (List.mem_append.2 he)).1
      simp only at ho
      rw [ho] at this
      simp [Event.isChannelCall] at this
  · intro hf
    simp only [firstRunTrace, hf, if_true]
    constructor
    · exact ⟨passedGatesTrace w command_line,
        (PrepareRestartOnCrashEnviroment ev w command_line env).1 ++ rest, by simp⟩
    · have c1 : (passedGatesTrace w command_line).count (Event.call .OpenFirstRunDialog) = 0 := by
        refine List.count_eq_zero.2 (fun h => ?_)
        have := hP _ h
        simp [Event.isChannelCall] at this
      have c2 : ((PrepareRestartOnCrashEnviroment ev w command_line env).1 ++ rest).count
          (Event.call .OpenFirstRunDialog) = 0 := by
        refine List.count_eq_zero.2 (fun h => ?_)
        have := (hT _ h).1
        simp [Event.isChannelCall] at this
      rw [List.count_append, List.count_append, List.count_append, c1, c2]
      decide
  · intro p hp hq
    have h7 : p.2.stage = 7 ∧ p.2.isChannelCall = false := by
      rcases hq with h | h
      · exact ⟨(hQ _ h).2.1, (hQ _ h).1⟩
      · exact ⟨(isNormalOperation_spec _ h).2, (isNormalOperation_spec _ h).1⟩
    simp only [List.mem_append, List.mem_singleton, List.mem_map] at hp
    rcases hp with ((⟨e, he, rfl⟩ | h) | h) | ⟨e, he, rfl⟩
    · have := hPs e he
      have h7' := h7.1
      simp only at h7'
      omega
    · subst h
      cases h7.2
    · have := (hFs p h).1
      rw [h7.2] at this
      cases this
    · exact hFa
  · intro e he
    simp only [List.mem_append]
    exact Or.inr (Or.inl he)
  · have a1 : channelAfter ChannelState.initial
        (passedGatesTrace w command_line ++ [Event.call .MessageWindowCreate])
        = { created := true, locked := false } := by
      rw [channelAfter_append, channelAfter_quiet _ _ hP]
      rfl
    rw [channelAfter_append _
        (passedGatesTrace w command_line ++ [Event.call .MessageWindowCreate]
          ++ firstRunTrace w command_line)
        ((PrepareRestartOnCrashEnviroment ev w command_line env).1 ++ rest),
      channelAfter_append _
        (passedGatesTrace w command_line ++ [Event.call .MessageWindowCreate])
        (firstRunTrace w command_line), a1, hFa]
    exact channelAfter_quiet _ _ (fun e he => (hT e he).1)

/-- Claim C12 at the sample launch on a machine without the sentinel, with the
first-run switch, and with neither. -/
theorem first_run_ui_under_lock_witness :
    Event.call .OpenFirstRunDialog
      ∈ (BrowserMain chromeEnvVars firstRunWorld noSwitches emptyEnv).trace ∧
    Event.call .OpenFirstRunDialog
      ∈ (BrowserMain chromeEnvVars sampleWorld firstRunOnly emptyEnv).trace ∧
    Event.call .OpenFirstRunDialog
      ∉ (BrowserMain chromeEnvVars sampleWorld noSwitches emptyEnv).trace ∧
    (BrowserMain chromeEnvVars firstRunWorld noSwitches emptyEnv).trace.count
      (Event.call .OpenFirstRunDialog) = 1 ∧
    channelAfter ChannelState.initial
        (BrowserMain chromeEnvVars firstRunWorld noSwitches emptyEnv).trace
      = { created := true, locked := false } ∧
    channelAfter ChannelState.initial
        (BrowserMain chromeEnvVars sampleWorld noSwitches emptyEnv).trace
      = { created := true, locked := false } :=
  have h1 := first_run_ui_under_lock chromeEnvVars firstRunWorld noSwitches emptyEnv
    (by decide) (by decide)
  have h2 := first_run_ui_under_lock chromeEnvVars sampleWorld firstRunOnly emptyEnv
    (by decide) (by decide)
  have h3 := first_run_ui_under_lock chromeEnvVars sampleWorld noSwitches emptyEnv
    (by decide) (by decide)
  ⟨h1.1.2 (Or.inl (by decide)), h2.1.2 (Or.inr (by decide)),
    fun hm => absurd (h3.1.1 hm) (by decide), (h1.2.2.1 (Or.inl (by decide))).2,
    h1.2.2.2.2.2, h3.2.2.2.2.2⟩

end BrowserMainModel
